import Mathlib

/-!
Verification development for the HireLens resume parsing and ATS scoring
engine.  The Python services `ats_scoring_service.py` and
`resume_parser_service.py` are shallowly embedded below: pure functions
become Lean functions over `List Char` / `String`, Python `float` scores
become `Rat`, and external collaborators (the sklearn TF-IDF vectorizer,
the `dateutil` date parser, the spaCy pipeline, the filesystem) become
explicit oracle parameters.  Character classes are interpreted over the
ASCII range handled by the source's patterns.

Python's `re` module is embedded by a small backtracking matcher over an
explicit pattern syntax tree; each Python pattern literal is transcribed
into that syntax tree next to the function using it.  The matcher follows
Python's semantics: leftmost match, alternatives tried left to right,
greedy and lazy repetition via backtracking, capture groups recording the
most recent capture.
-/

namespace HireLens

/-! ### Python string primitives (ASCII) -/

/-- The apostrophe character, used to build string literals containing it. -/
def apos : Char := Char.ofNat 39

def aposS : String := String.mk [apos]

/-- ASCII lowercase conversion of one character, as in Python `str.lower`. -/
def lowerChar (c : Char) : Char :=
  if 'A' ≤ c ∧ c ≤ 'Z' then Char.ofNat (c.toNat + 32) else c

/-- ASCII uppercase conversion of one character, as in Python `str.upper`. -/
def upperChar (c : Char) : Char :=
  if 'a' ≤ c ∧ c ≤ 'z' then Char.ofNat (c.toNat - 32) else c

def isDigitCh (c : Char) : Bool := '0' ≤ c ∧ c ≤ '9'

def isLowerCh (c : Char) : Bool := 'a' ≤ c ∧ c ≤ 'z'

def isUpperCh (c : Char) : Bool := 'A' ≤ c ∧ c ≤ 'Z'

def isAlphaCh (c : Char) : Bool := isLowerCh c ∨ isUpperCh c

/-- Python `\s` over ASCII: space, tab, newline, carriage return,
vertical tab, form feed. -/
def isSpaceCh (c : Char) : Bool :=
  c = ' ' ∨ c = '\t' ∨ c = '\n' ∨ c = '\r' ∨ c = Char.ofNat 11 ∨ c = Char.ofNat 12

/-- Python `\w` over ASCII: letters, digits and underscore. -/
def isWordCh (c : Char) : Bool := isAlphaCh c ∨ isDigitCh c ∨ c = '_'

/-- Python `str.lower` (ASCII). -/
def pyLower (s : List Char) : List Char := s.map lowerChar

/-- Python `str.strip()` with the default whitespace set. -/
def pyStrip (s : List Char) : List Char :=
  ((s.dropWhile isSpaceCh).reverse.dropWhile isSpaceCh).reverse

/-- Python `str.strip(chars)` for an explicit character set. -/
def pyStripChars (cs : List Char) (s : List Char) : List Char :=
  ((s.dropWhile (cs.contains ·)).reverse.dropWhile (cs.contains ·)).reverse

/-- Python `needle in hay` on strings: substring containment. -/
def substr (needle hay : List Char) : Bool :=
  match hay with
  | [] => needle.isEmpty
  | _ :: t => needle.isPrefixOf hay || substr needle t

/-- Python `str.split(sep)` for a one-character separator: keeps empty parts. -/
def splitCh (sep : Char) (s : List Char) : List (List Char) :=
  match s with
  | [] => [[]]
  | c :: rest =>
    let r := splitCh sep rest
    if c = sep then [] :: r
    else
      match r with
      | [] => [[c]]
      | h :: t => (c :: h) :: t

/-- Python `str.split()` with no argument: split on whitespace runs,
dropping empty parts. -/
def splitWs (s : List Char) : List (List Char) :=
  match s with
  | [] => []
  | c :: rest =>
    let r := splitWs rest
    if isSpaceCh c then r
    else
      match rest with
      | [] => [[c]]
      | d :: _ =>
        if isSpaceCh d then [c] :: r
        else
          match r with
          | [] => [[c]]
          | h :: t => (c :: h) :: t

/-- Python `sep.join(parts)`. -/
def pyJoin (sep : List Char) : List (List Char) → List Char
  | [] => []
  | [p] => p
  | p :: rest => p ++ sep ++ pyJoin sep rest

/-- Python `str.replace(old, new)`: replaces every non-overlapping
occurrence left to right (`old` is assumed non-empty at every call site). -/
def pyReplaceAux (old new : List Char) : Nat → List Char → List Char
  | _, [] => []
  | 0, s => s
  | fuel + 1, c :: t =>
    if 0 < old.length ∧ old.isPrefixOf (c :: t) then
      new ++ pyReplaceAux old new fuel (t.drop (old.length - 1))
    else
      c :: pyReplaceAux old new fuel t

def pyReplace (old new : List Char) (s : List Char) : List Char :=
  pyReplaceAux old new s.length s

/-- Python `str.startswith(p)`. -/
def startsWith (p s : List Char) : Bool := p.isPrefixOf s

/-- Python `str.capitalize()`: first character uppercased, the rest
lowercased. -/
def pyCapitalize (s : List Char) : List Char :=
  match s with
  | [] => []
  | c :: t => upperChar c :: t.map lowerChar

/-- Python `int(...)` on a string of decimal digits. -/
def digitsToNat (s : List Char) : Nat :=
  s.foldl (fun acc c => acc * 10 + (c.toNat - '0'.toNat)) 0

/-- Code-point lexicographic comparison, as Python compares strings. -/
def lexLe : List Char → List Char → Bool
  | [], _ => true
  | _ :: _, [] => false
  | a :: as, b :: bs => if a = b then lexLe as bs else decide (a < b)

/-- Stable insertion into an ascending list (equal keys: the inserted
element goes first, which makes the sort below stable). -/
def insertAsc (le : α → α → Bool) (a : α) : List α → List α
  | [] => [a]
  | b :: bs => if le a b then a :: b :: bs else b :: insertAsc le a bs

/-- Stable insertion sort; with `le` a total preorder test this matches
Python's stable `sorted`/`list.sort`. -/
def insSort (le : α → α → Bool) : List α → List α
  | [] => []
  | a :: as => insertAsc le a (insSort le as)

/-- Python `sorted(list(set(l)))` on strings: deduplicate, then sort in
code-point order.  (Python's `set` iteration order is unspecified; the
final `sorted` makes the result order-independent.) -/
def sortedSet (l : List (List Char)) : List (List Char) :=
  insSort lexLe l.dedup

/-- Python `set(l)` realized as first-occurrence deduplication; all uses
below are order-insensitive (cardinalities, membership, re-sorting). -/
def pySet (l : List (List Char)) : List (List Char) := l.dedup

/-! ### A small backtracking matcher for Python `re` patterns

Patterns are transcribed into the syntax tree `RE`; the matcher mirrors
Python's backtracking order (alternatives left to right, greedy
repetition takes the longest branch first, lazy repetition the shortest).
Repetition carries explicit fuel; every call below supplies fuel larger
than any possible number of repetition steps (each step either consumes a
character or ends the repetition), so the fuel never runs out. -/

inductive RE where
  | eps : RE
  | cls : (Char → Bool) → RE
  | seq : RE → RE → RE
  | alt : RE → RE → RE
  | rep : RE → Nat → Option Nat → Bool → RE
  | grp : Nat → RE → RE
  | asrt : (List Char → Nat → Bool) → RE

/-- Captures: group index, start offset, end offset (most recent first). -/
abbrev Caps := List (Nat × Nat × Nat)

/-- The backtracking matcher.  `reMatch fuel r s pos caps k` tries to match
`r` at offset `pos` of `s`, extending `caps`, and calls the continuation
`k` on every candidate end position in preference order until one
succeeds.  Recursion is structural on `fuel` so that the kernel can
evaluate concrete matches; every entry point below supplies fuel larger
than any chain of recursive calls a pattern of this development can make
(one unit per syntax-tree node plus one per repetition step, and every
repetition step consumes at least one character). -/
def reMatch : Nat → RE → List Char → Nat → Caps →
    (Nat → Caps → Option (Nat × Caps)) → Option (Nat × Caps)
  | 0, _, _, _, _, _ => none
  | fuel + 1, re, s, pos, caps, k =>
    match re with
    | .eps => k pos caps
    | .cls p =>
      match s[pos]? with
      | some c => if p c then k (pos + 1) caps else none
      | none => none
    | .seq a b => reMatch fuel a s pos caps (fun p c => reMatch fuel b s p c k)
    | .alt a b =>
      match reMatch fuel a s pos caps k with
      | some r => some r
      | none => reMatch fuel b s pos caps k
    | .grp i a => reMatch fuel a s pos caps (fun p c => k p ((i, pos, p) :: c))
    | .asrt g => if g s pos then k pos caps else none
    | .rep a lo hi greedy =>
      let more : Unit → Option (Nat × Caps) := fun _ =>
        if hi = some 0 then none
        else
          reMatch fuel a s pos caps (fun p c =>
            if p = pos then (if lo = 0 then k p c else none)
            else reMatch fuel (.rep a (lo - 1) (hi.map (· - 1)) greedy) s p c k)
      if 0 < lo then more ()
      else if greedy then
        match more () with
        | some r => some r
        | none => k pos caps
      else
        match k pos caps with
        | some r => some r
        | none => more ()

/-- Fuel per match attempt; all patterns in this development have fewer
than 64 syntax-tree nodes. -/
def reFuel (s : List Char) : Nat := 64 * (s.length + 4)

/-- First match of `re` at or after offset `i` (Python `re.search`):
returns match start, match end, captures; tries successive start
offsets.  `fuel` counts the remaining candidate start offsets. -/
def reSearchAux (re : RE) (s : List Char) : Nat → Nat → Option (Nat × Nat × Caps)
  | 0, _ => none
  | fuel + 1, i =>
    match reMatch (reFuel s) re s i [] (fun p c => some (p, c)) with
    | some (e, caps) => some (i, e, caps)
    | none => reSearchAux re s fuel (i + 1)

def reSearchFrom (re : RE) (s : List Char) (i : Nat) : Option (Nat × Nat × Caps) :=
  reSearchAux re s (s.length + 1 - i) i

def reSearch (re : RE) (s : List Char) : Option (Nat × Nat × Caps) :=
  reSearchFrom re s 0

/-- Python `re.search(...)` used as a boolean test. -/
def reTest (re : RE) (s : List Char) : Bool := (reSearch re s).isSome

/-- Python `re.match`: anchored at offset 0. -/
def reMatchAt0 (re : RE) (s : List Char) : Option (Nat × Caps) :=
  reMatch (reFuel s) re s 0 [] (fun p c => some (p, c))

/-- Content of capture group `i`: Python returns the most recent capture;
an unmatched group yields `none`. -/
def capGet (s : List Char) (caps : Caps) (i : Nat) : Option (List Char) :=
  match caps.find? (fun t => t.1 = i) with
  | some (_, a, b) => some ((s.drop a).take (b - a))
  | none => none

/-- Group content with Python `findall`'s convention that an unmatched
group contributes the empty string. -/
def capGetD (s : List Char) (caps : Caps) (i : Nat) : List Char :=
  (capGet s caps i).getD []

/-- All non-overlapping matches, leftmost first (Python `re.finditer`);
returns (start, end, captures) triples.  An empty match advances by one
character, as in Python. -/
def reIterAux (fuel : Nat) (re : RE) (s : List Char) (i : Nat) :
    List (Nat × Nat × Caps) :=
  match fuel with
  | 0 => []
  | fuel + 1 =>
    match reSearchFrom re s i with
    | none => []
    | some (ms, me, caps) =>
      (ms, me, caps) :: reIterAux fuel re s (if me = ms then me + 1 else me)

def reIter (re : RE) (s : List Char) : List (Nat × Nat × Caps) :=
  reIterAux (s.length + 1) re s 0

/-- Python `re.findall` for a pattern without capture groups: the list of
full match texts. -/
def reFindAll (re : RE) (s : List Char) : List (List Char) :=
  (reIter re s).map (fun t => (s.drop t.1).take (t.2.1 - t.1))

/-- Python `re.findall` for a pattern with exactly one capture group: the
list of group-1 texts (empty string when the group did not participate). -/
def reFindAll1 (re : RE) (s : List Char) : List (List Char) :=
  (reIter re s).map (fun t => capGetD s t.2.2 1)

/-- Python `re.findall` for a pattern with exactly two capture groups:
the list of (group 1, group 2) pairs. -/
def reFindAll2 (re : RE) (s : List Char) : List (List Char × List Char) :=
  (reIter re s).map (fun t => (capGetD s t.2.2 1, capGetD s t.2.2 2))

/-- Python `re.split(pattern, s, maxsplit)`: `none` for unlimited. -/
def reSplitAux (fuel : Nat) (re : RE) (s : List Char) (i : Nat)
    (remaining : Option Nat) : List (List Char) :=
  match fuel with
  | 0 => [s.drop i]
  | fuel + 1 =>
    if remaining = some 0 then [s.drop i]
    else
      match reSearchFrom re s i with
      | none => [s.drop i]
      | some (ms, me, _) =>
        if me = ms then
          -- none of the separator patterns below can match the empty string
          [s.drop i]
        else
          ((s.drop i).take (ms - i)) ::
            reSplitAux fuel re s me (remaining.map (· - 1))

def reSplit (re : RE) (s : List Char) (maxsplit : Option Nat := none) :
    List (List Char) :=
  reSplitAux (s.length + 1) re s 0 maxsplit

/-- Python `re.sub(pattern, repl, s)` with a plain replacement string. -/
def reSubAux (fuel : Nat) (re : RE) (repl : List Char) (s : List Char)
    (i : Nat) : List Char :=
  match fuel with
  | 0 => s.drop i
  | fuel + 1 =>
    match reSearchFrom re s i with
    | none => s.drop i
    | some (ms, me, _) =>
      if me = ms then
        match s[ms]? with
        | none => ((s.drop i).take (ms - i)) ++ repl
        | some c =>
          ((s.drop i).take (ms - i)) ++ repl ++ [c] ++
            reSubAux fuel re repl s (me + 1)
      else
        ((s.drop i).take (ms - i)) ++ repl ++ reSubAux fuel re repl s me

def reSub (re : RE) (repl : List Char) (s : List Char) : List Char :=
  reSubAux (s.length + 1) re repl s 0

/-! #### Pattern combinators used by the transcriptions -/

/-- Concatenation of a pattern list. -/
def rcat (l : List RE) : RE := l.foldr .seq .eps

/-- Alternation, tried left to right as Python does. -/
def ralt : List RE → RE
  | [] => .cls (fun _ => false)
  | [a] => a
  | a :: rest => .alt a (ralt rest)

def rchr (c : Char) : RE := .cls (fun x => x = c)

/-- A literal character under `re.IGNORECASE`. -/
def rchrCI (c : Char) : RE := .cls (fun x => lowerChar x = lowerChar c)

def rstr (s : String) : RE := rcat (s.data.map rchr)

def rstrCI (s : String) : RE := rcat (s.data.map rchrCI)

/-- Character class from an explicit set of characters. -/
def rset (s : String) : RE := .cls (fun x => s.data.contains x)

def rnset (s : String) : RE := .cls (fun x => ¬ s.data.contains x)

def rstar (greedy : Bool) (r : RE) : RE := .rep r 0 none greedy

def rplus (greedy : Bool) (r : RE) : RE := .rep r 1 none greedy

def ropt (greedy : Bool) (r : RE) : RE := .rep r 0 (some 1) greedy

/-- Bounded repetition `{lo,hi}` (greedy). -/
def rrep (r : RE) (lo hi : Nat) : RE := .rep r lo (some hi) true

/-- Repetition `{lo,}` (greedy). -/
def rrepFrom (r : RE) (lo : Nat) : RE := .rep r lo none true

def rdigit : RE := .cls isDigitCh

def rws : RE := .cls isSpaceCh

def rwordc : RE := .cls isWordCh

/-- `^` in an unanchored single-line pattern. -/
def rbol : RE := .asrt (fun _ p => p = 0)

/-- `$`: end of string, or just before a final newline, as in Python. -/
def reol : RE :=
  .asrt (fun s p => p = s.length ∨ (p + 1 = s.length ∧ s[p]? = some '\n'))

/-- `\b`: word boundary. -/
def rwb : RE :=
  .asrt (fun s p =>
    (match s[p - 1]? with
     | some c => if p = 0 then false else isWordCh c
     | none => false) ≠
    (match s[p]? with
     | some c => isWordCh c
     | none => false))

/-- `[A-Z]`, which under `re.IGNORECASE` matches any ASCII letter. -/
def ruppercls (ci : Bool) : RE := .cls (fun c => if ci then isAlphaCh c else isUpperCh c)

/-- `[a-z]`, which under `re.IGNORECASE` matches any ASCII letter. -/
def rlowercls (ci : Bool) : RE := .cls (fun c => if ci then isAlphaCh c else isLowerCh c)

/-- `[a-zA-Z]`. -/
def ralphacls : RE := .cls isAlphaCh

/-- `.` (which does not match a newline). -/
def rdot : RE := .cls (fun c => c ≠ '\n')

/-! ### Data model (`app/models/resume.py`, `app/models/job.py`)

Only the fields read or written by the parsing and scoring engine are
modelled; purely presentational fields (salary bounds, timestamps, status
workflow fields of the job record, …) are omitted. -/

structure Skills where
  technical : List String := []
  soft : List String := []
  tools : List String := []
  frameworks : List String := []
  languages : List String := []
deriving DecidableEq, Repr

structure Education where
  institution : String
  degree : String
  field_of_study : String
  graduation_date : Option String := none
  gpa : Option String := none
  achievements : List String := []
deriving DecidableEq, Repr

structure Experience where
  company : String
  position : String
  location : Option String := none
  start_date : Option String := none
  end_date : Option String := none
  is_current : Bool := false
  description : List String := []
  achievements : List String := []
  technologies : List String := []
deriving DecidableEq, Repr

structure PersonalInfo where
  name : Option String := none
  email : Option String := none
  phone : Option String := none
  location : Option String := none
  linkedin : Option String := none
  github : Option String := none
  portfolio : Option String := none
deriving DecidableEq, Repr

structure ParsedData where
  personal_info : PersonalInfo := {}
  education : List Education := []
  experience : List Experience := []
  skills : Skills := {}
  certifications : List String := []
  languages : List String := []
deriving DecidableEq, Repr

inductive FileType where
  | pdf | docx | doc
deriving DecidableEq, Repr

inductive ProcessingStatus where
  | pending | processing | completed | failed
deriving DecidableEq, Repr

structure ResumeFileMetadata where
  file_size : Nat
  file_type : FileType
  pages : Option Nat := none
deriving DecidableEq, Repr

structure ParsedResume where
  id : String
  filename : String
  raw_text : String
  parsed_data : ParsedData := {}
  metadata : ResumeFileMetadata
  status : ProcessingStatus := .pending
  error_message : Option String := none
deriving DecidableEq, Repr

inductive ExperienceLevel where
  | entry | junior | middle | senior | lead | executive
deriving DecidableEq, Repr

/-- The string `.value` of the enum member. -/
def ExperienceLevel.val : ExperienceLevel → String
  | .entry => "entry"
  | .junior => "junior"
  | .middle => "middle"
  | .senior => "senior"
  | .lead => "lead"
  | .executive => "executive"

/-- The fields of `JobDescription` consumed by the ATS scorer; weights are
Python floats modelled as rationals. -/
structure JobDescription where
  title : String := ""
  description : String := ""
  required_skills : List String := []
  preferred_skills : Option (List String) := some []
  education_requirements : Option (List String) := some []
  experience_level : Option ExperienceLevel := none
  weight_skills : Rat := 4/10
  weight_experience : Rat := 3/10
  weight_education : Rat := 2/10
  weight_keywords : Rat := 1/10

/-- The `validate_weights_sum` model validator of `JobDescription` (plus
the per-field `ge=0, le=1` bounds): each weight lies in `[0,1]` and the
four weights sum to `1.0` within a `0.01` tolerance. -/
def JobDescription.validWeights (j : JobDescription) : Prop :=
  0 ≤ j.weight_skills ∧ j.weight_skills ≤ 1 ∧
  0 ≤ j.weight_experience ∧ j.weight_experience ≤ 1 ∧
  0 ≤ j.weight_education ∧ j.weight_education ≤ 1 ∧
  0 ≤ j.weight_keywords ∧ j.weight_keywords ≤ 1 ∧
  |j.weight_skills + j.weight_experience + j.weight_education +
      j.weight_keywords - 1| ≤ 1/100

/-! ### ATS scoring service (`app/services/ats_scoring_service.py`)

`calculate_ats_score` and its sub-scorers are embedded one for one.  The
only external collaborator is the sklearn TF-IDF vectorizer /
cosine-similarity computation inside `_calculate_keywords_match`; it is
modelled by an oracle argument `sim : Option Rat` (`some s` for a
successful vectorization with cosine similarity `s`, `none` when
vectorization raised, e.g. on an empty vocabulary).  `datetime.now().year`
in `_calculate_duration_from_dates` is the explicit argument `nowYear`. -/

/-- `skill.lower().strip()` applied when building the three skill sets. -/
def normSkill (s : String) : List Char := pyStrip (pyLower s.data)

/-- Python `set.intersection` on deduplicated lists. -/
def setInter (a b : List (List Char)) : List (List Char) :=
  a.filter (fun x => b.contains x)

/-- Python set difference on deduplicated lists. -/
def setDiff (a b : List (List Char)) : List (List Char) :=
  a.filter (fun x => ¬ b.contains x)

/-- The concatenation of all five skill buckets of a resume, as built at
the top of `_calculate_skills_match` (the Python `if bucket:` guards
before each `extend` are no-ops for empty lists). -/
def allResumeSkills (r : ParsedData) : List String :=
  r.skills.technical ++ r.skills.soft ++ r.skills.tools ++
    r.skills.frameworks ++ r.skills.languages

/-- `_find_partial_skill_matches`: a job skill is partially matched when
some resume skill contains it or is contained in it and both are longer
than two characters; each job skill is appended at most once (the inner
loop breaks), so the result is the filtered list of job skills. -/
def find_partial_skill_matches (resume_skills job_skills : List (List Char)) :
    List (List Char) :=
  job_skills.filter (fun j =>
    resume_skills.any (fun r =>
      (substr j r || substr r j) && decide (j.length > 2) && decide (r.length > 2)))

/-- The `details` dictionary built by `_calculate_skills_match`.  Note
that it has no key `missing` (the missing skills are returned one level
up); `_generate_recommendations` nevertheless looks `missing` up in this
dictionary. -/
structure SkillsDetails where
  required_matches : Nat
  required_partial : Nat
  preferred_matches : Nat
  preferred_partial : Nat
  total_required : Nat
  total_preferred : Nat
deriving DecidableEq, Repr

/-- `breakdown['skills']['details'].get('missing', [])`: the dictionary
has no such key, so the lookup always yields the default empty list. -/
def SkillsDetails.getMissing (_ : SkillsDetails) : List (List Char) := []

structure SkillsResult where
  score : Rat
  matched : List (List Char)
  missing : List (List Char)
  details : SkillsDetails

/-- `_calculate_skills_match`. -/
def calculate_skills_match (resume : ParsedResume) (job : JobDescription) :
    SkillsResult :=
  let resume_skills := pySet ((allResumeSkills resume.parsed_data).map normSkill)
  let required_skills := pySet (job.required_skills.map normSkill)
  let preferred_skills := pySet ((job.preferred_skills.getD []).map normSkill)
  let required_matches := setInter resume_skills required_skills
  let preferred_matches := setInter resume_skills preferred_skills
  let required_partials := find_partial_skill_matches resume_skills required_skills
  let preferred_partials := find_partial_skill_matches resume_skills preferred_skills
  let total_required := required_skills.length
  let total_preferred := preferred_skills.length
  let score : Rat :=
    if total_required = 0 ∧ total_preferred = 0 then 100
    else
      let required_score : Rat :=
        ((required_matches.length : Rat) + (required_partials.length : Rat) * (1/2)) /
          (max total_required 1 : Nat)
      let preferred_score : Rat :=
        ((preferred_matches.length : Rat) + (preferred_partials.length : Rat) * (1/2)) /
          (max total_preferred 1 : Nat)
      if 0 < total_required ∧ 0 < total_preferred then
        (required_score * (7/10) + preferred_score * (3/10)) * 100
      else if 0 < total_required then required_score * 100
      else preferred_score * 100
  let missing_required := setDiff (setDiff required_skills required_matches)
    (pySet required_partials)
  let missing_preferred := setDiff (setDiff preferred_skills preferred_matches)
    (pySet preferred_partials)
  { score := min score 100
    matched := pySet (required_matches ++ preferred_matches)
    missing := pySet (missing_required ++ missing_preferred)
    details :=
      { required_matches := required_matches.length
        required_partial := required_partials.length
        preferred_matches := preferred_matches.length
        preferred_partial := preferred_partials.length
        total_required := total_required
        total_preferred := total_preferred } }

/-! #### `_calculate_duration_from_dates` and its date patterns -/

/-- `r'(\d{4})-(\d{2})-(\d{2})'`. -/
def durPat1 : RE :=
  rcat [.grp 1 (rrep rdigit 4 4), rchr '-', .grp 2 (rrep rdigit 2 2),
        rchr '-', .grp 3 (rrep rdigit 2 2)]

/-- `r'(\d{2})/(\d{2})/(\d{4})'`. -/
def durPat2 : RE :=
  rcat [.grp 1 (rrep rdigit 2 2), rchr '/', .grp 2 (rrep rdigit 2 2),
        rchr '/', .grp 3 (rrep rdigit 4 4)]

/-- `r'(\d{4})/(\d{2})'`. -/
def durPat3 : RE :=
  rcat [.grp 1 (rrep rdigit 4 4), rchr '/', .grp 2 (rrep rdigit 2 2)]

/-- `r'(\d{4})'`. -/
def durPat4 : RE := .grp 1 (rrep rdigit 4 4)

/-- The year extracted by the pattern loop of
`_calculate_duration_from_dates`: patterns are tried in order, and for a
pattern with three groups the year is group 1 when it has four digits,
group 3 otherwise; for fewer groups it is group 1. -/
def durationYearOf (s : List Char) : Option Nat :=
  match reSearch durPat1 s with
  | some (_, _, caps) =>
    let g1 := capGetD s caps 1
    some (if g1.length = 4 then digitsToNat g1 else digitsToNat (capGetD s caps 3))
  | none =>
    match reSearch durPat2 s with
    | some (_, _, caps) =>
      let g1 := capGetD s caps 1
      some (if g1.length = 4 then digitsToNat g1 else digitsToNat (capGetD s caps 3))
    | none =>
      match reSearch durPat3 s with
      | some (_, _, caps) => some (digitsToNat (capGetD s caps 1))
      | none =>
        match reSearch durPat4 s with
        | some (_, _, caps) => some (digitsToNat (capGetD s caps 1))
        | none => none

/-- `_calculate_duration_from_dates`: duration in years of one experience
entry.  Python's falsy tests make the empty string and the year `0`
behave like missing values; the surrounding `try/except` can never fire
in this pure arithmetic, so the embedded function is total. -/
def calculate_duration_from_dates (nowYear : Int) (start_date end_date : Option String)
    (is_current : Bool) : Rat :=
  match start_date with
  | none => 1
  | some sd =>
    if sd.data = [] then 1
    else
      match durationYearOf sd.data with
      | none => 1
      | some sy =>
        if sy = 0 then 1
        else
          let end_year : Int :=
            if is_current then nowYear
            else
              match end_date with
              | some ed =>
                if ed.data = [] then (sy : Int) + 1
                else
                  match durationYearOf ed.data with
                  | some ey => if ey = 0 then (sy : Int) + 1 else (ey : Int)
                  | none => (sy : Int) + 1
              | none => (sy : Int) + 1
          max ((end_year - (sy : Int) : Int) : Rat) (1/2)

/-- `_is_relevant_experience`: title-word overlap with the job title, or a
required/preferred skill mentioned in the entry's description. -/
def is_relevant_experience (exp : Experience) (job : JobDescription) : Bool :=
  let job_title_words := pySet (splitWs (pyLower job.title.data))
  let exp_title_words := pySet (splitWs (pyLower exp.position.data))
  let exp_description :=
    if exp.description ≠ [] then pyJoin (" ".data) (exp.description.map (·.data)) else []
  decide (0 < (setInter job_title_words exp_title_words).length) ||
    (job.required_skills ++ job.preferred_skills.getD []).any
      (fun sk => substr (pyLower sk.data) (pyLower exp_description))

/-- The experience-level → minimum-years table of
`_calculate_experience_match` (`dict.get` with default 0 is total here
because the enum is covered). -/
def experience_level_years : ExperienceLevel → Nat
  | .entry => 0
  | .junior => 1
  | .middle => 3
  | .senior => 5
  | .lead => 7
  | .executive => 10

structure ExperienceDetails where
  total_experience : Rat
  relevant_experience : Rat
  required_years : Nat
  experience_positions : Nat

structure ExperienceResult where
  score : Rat
  details : ExperienceDetails

/-- `_calculate_experience_match`. -/
def calculate_experience_match (nowYear : Int) (resume : ParsedResume)
    (job : JobDescription) : ExperienceResult :=
  let durations := resume.parsed_data.experience.map (fun e =>
    calculate_duration_from_dates nowYear e.start_date e.end_date e.is_current)
  let total_experience : Rat := durations.sum
  let relevant_experience : Rat :=
    (resume.parsed_data.experience.filterMap (fun e =>
      if is_relevant_experience e job then
        some (calculate_duration_from_dates nowYear e.start_date e.end_date e.is_current)
      else none)).sum
  let required_years : Nat :=
    match job.experience_level with
    | some lv => experience_level_years lv
    | none => 0
  let score : Rat :=
    if required_years = 0 then 100
    else
      let base_score := min (relevant_experience / (required_years : Rat)) 1 * 80
      let bonus_score := min (total_experience / (required_years : Rat)) (1/2) * 20
      (base_score + bonus_score) * 100
  { score := min score 100
    details :=
      { total_experience := total_experience
        relevant_experience := relevant_experience
        required_years := required_years
        experience_positions := resume.parsed_data.experience.length } }

/-- The ordered `education_levels` table of `_calculate_education_match`. -/
def education_levels : List (List Char × Nat) :=
  [("high school".data, 1), ("associate".data, 2), ("bachelor".data, 3),
   ("master".data, 4), ("phd".data, 5), ("doctorate".data, 5)]

/-- The inner loop over `education_levels` with its `break`: the value of
the first level name occurring in the lowercased text, if any. -/
def educationLevelOf (textLower : List Char) : Option Nat :=
  (education_levels.find? (fun lv => substr lv.1 textLower)).map (·.2)

structure EducationDetails where
  education_required : Bool
  required_education : Option (List Char) := none
  resume_education_level : Option Nat := none
  required_education_level : Option Nat := none
  education_count : Option Nat := none

structure EducationResult where
  score : Rat
  details : EducationDetails

/-- `_calculate_education_match`. -/
def calculate_education_match (resume : ParsedResume) (job : JobDescription) :
    EducationResult :=
  let education_reqs := job.education_requirements.getD []
  if education_reqs = [] then
    { score := 100, details := { education_required := false } }
  else
    let required_level : Nat := education_reqs.foldl (fun acc req =>
      match educationLevelOf (pyLower req.data) with
      | some v => max acc v
      | none => acc) 0
    let resume_level : Nat := resume.parsed_data.education.foldl (fun acc edu =>
      match educationLevelOf (pyLower edu.degree.data) with
      | some v => max acc v
      | none => acc) 0
    let score : Rat :=
      if required_level = 0 then 100
      else if required_level ≤ resume_level then 100
      else if 0 < resume_level then ((resume_level : Rat) / (required_level : Rat)) * 70
      else 20
    { score := min score 100
      details :=
        { education_required := true
          required_education := some (pyJoin (", ".data) (education_reqs.map (·.data)))
          resume_education_level := some resume_level
          required_education_level := some required_level
          education_count := some resume.parsed_data.education.length } }

/-! #### `_calculate_keywords_match` -/

/-- `re.findall(r'\b\w+\b', text)`: exactly the maximal runs of word
characters. -/
def wordTokens (s : List Char) : List (List Char) :=
  match s with
  | [] => []
  | c :: rest =>
    let r := wordTokens rest
    if ¬ isWordCh c then r
    else
      match rest with
      | [] => [[c]]
      | d :: _ =>
        if ¬ isWordCh d then [c] :: r
        else
          match r with
          | [] => [[c]]
          | h :: t => (c :: h) :: t

/-- The stop-word set of `_calculate_keywords_match`. -/
def keywordStopWords : List (List Char) :=
  ["the", "and", "or", "but", "in", "on", "at", "to", "for", "of", "with",
   "by", "is", "are", "was", "were", "be", "been", "being", "have", "has",
   "had", "do", "does", "did", "will", "would", "could", "should"].map (·.data)

structure KeywordsDetails where
  error : Bool
  similarity_score : Option Rat := none
  total_keyword_matches : Option Nat := none
  job_word_count : Option Nat := none
  resume_word_count : Option Nat := none

structure KeywordsResult where
  score : Rat
  matchesKw : List (List Char)
  details : KeywordsDetails

/-- The resume-side document of `_calculate_keywords_match` (note that the
`languages` bucket is not included there). -/
def keywordsResumeText (resume : ParsedResume) : List Char :=
  let all_skills := resume.parsed_data.skills.technical ++
    resume.parsed_data.skills.soft ++ resume.parsed_data.skills.tools ++
    resume.parsed_data.skills.frameworks
  resume.parsed_data.experience.foldl (fun acc exp =>
    let exp_desc :=
      if exp.description ≠ [] then pyJoin (" ".data) (exp.description.map (·.data)) else []
    acc ++ " ".data ++ exp.position.data ++ " ".data ++ exp.company.data ++
      " ".data ++ exp_desc)
    (pyJoin (" ".data) (all_skills.map (·.data)))

/-- The job-side document of `_calculate_keywords_match`. -/
def keywordsJobText (job : JobDescription) : List Char :=
  job.title.data ++ " ".data ++ job.description.data ++ " ".data ++
    pyJoin (" ".data)
      ((job.required_skills ++ job.preferred_skills.getD []).map (·.data))

/-- `_calculate_keywords_match`; `sim` is the TF-IDF cosine-similarity
oracle (`none`: the vectorizer raised and the declared fallback applies). -/
def calculate_keywords_match (sim : Option Rat) (resume : ParsedResume)
    (job : JobDescription) : KeywordsResult :=
  match sim with
  | none => { score := 50, matchesKw := [], details := { error := true } }
  | some similarity =>
    let job_text := keywordsJobText job
    let resume_text := keywordsResumeText resume
    let job_words := pySet (wordTokens (pyLower job_text))
    let resume_words := pySet (wordTokens (pyLower resume_text))
    let common_words := setInter job_words resume_words
    let meaningful_matches := common_words.filter (fun w =>
      ¬ keywordStopWords.contains w ∧ 2 < w.length)
    { score := min (similarity * 100) 100
      matchesKw := meaningful_matches.take 20
      details :=
        { error := false
          similarity_score := some similarity
          total_keyword_matches := some meaningful_matches.length
          job_word_count := some job_words.length
          resume_word_count := some resume_words.length } }

/-! #### Combiner and recommendations -/

structure SkillsBreakdown where
  score : Rat
  weight : Rat
  weighted_score : Rat
  details : SkillsDetails

structure ExperienceBreakdown where
  score : Rat
  weight : Rat
  weighted_score : Rat
  details : ExperienceDetails

structure EducationBreakdown where
  score : Rat
  weight : Rat
  weighted_score : Rat
  details : EducationDetails

structure KeywordsBreakdown where
  score : Rat
  weight : Rat
  weighted_score : Rat
  details : KeywordsDetails

structure ATSBreakdown where
  skills : SkillsBreakdown
  experience : ExperienceBreakdown
  education : EducationBreakdown
  keywords : KeywordsBreakdown

/-- `_generate_recommendations`.  The skills branch looks up
`details.get('missing', [])` on the skills `details` dictionary, which
never contains that key, so `missing_skills` is always empty there and
the skills recommendation is never emitted. -/
def generate_recommendations (breakdown : ATSBreakdown) : List (List Char) :=
  let recs : List (List Char) := []
  let skills_score := breakdown.skills.score
  let recs :=
    if skills_score < 70 then
      let missing_skills := breakdown.skills.details.getMissing
      if 0 < missing_skills.length then
        recs ++ ["Consider adding these skills: ".data ++
          pyJoin (", ".data) (missing_skills.take 5)]
      else recs
    else recs
  let experience_score := breakdown.experience.score
  let recs :=
    if experience_score < 60 then
      recs ++ [("Highlight more relevant work experience or include additional " ++
        "details about your accomplishments").data]
    else recs
  let keywords_score := breakdown.keywords.score
  let recs :=
    if keywords_score < 50 then
      recs ++ ["Include more job-specific keywords from the job description in your resume".data]
    else recs
  let education_score := breakdown.education.score
  let recs :=
    if education_score < 80 then
      recs ++ ["Consider adding or highlighting relevant education, certifications, or training".data]
    else recs
  recs

structure ATSScores where
  skills_score : Rat
  experience_score : Rat
  education_score : Rat
  keywords_score : Rat
  overall_score : Rat
  breakdown : ATSBreakdown
  recommendations : List (List Char)
  matched_skills : List (List Char)
  missing_skills : List (List Char)
  keyword_matches : List (List Char)

/-- `calculate_ats_score`: the four sub-scores, the weighted overall
score, the breakdown, and the recommendation list.  The `ATSWeights`
helper multiplies each job weight by 100 and every use divides by 100
again. -/
def calculate_ats_score (sim : Option Rat) (nowYear : Int)
    (resume : ParsedResume) (job : JobDescription) : ATSScores :=
  let skills_result := calculate_skills_match resume job
  let experience_result := calculate_experience_match nowYear resume job
  let education_result := calculate_education_match resume job
  let keywords_result := calculate_keywords_match sim resume job
  let w_skills := job.weight_skills * 100
  let w_experience := job.weight_experience * 100
  let w_education := job.weight_education * 100
  let w_keywords := job.weight_keywords * 100
  let overall :=
    skills_result.score * w_skills / 100 +
    experience_result.score * w_experience / 100 +
    education_result.score * w_education / 100 +
    keywords_result.score * w_keywords / 100
  let breakdown : ATSBreakdown :=
    { skills :=
        { score := skills_result.score, weight := w_skills
          weighted_score := skills_result.score * w_skills / 100
          details := skills_result.details }
      experience :=
        { score := experience_result.score, weight := w_experience
          weighted_score := experience_result.score * w_experience / 100
          details := experience_result.details }
      education :=
        { score := education_result.score, weight := w_education
          weighted_score := education_result.score * w_education / 100
          details := education_result.details }
      keywords :=
        { score := keywords_result.score, weight := w_keywords
          weighted_score := keywords_result.score * w_keywords / 100
          details := keywords_result.details } }
  { skills_score := skills_result.score
    experience_score := experience_result.score
    education_score := education_result.score
    keywords_score := keywords_result.score
    overall_score := overall
    breakdown := breakdown
    recommendations := generate_recommendations breakdown
    matched_skills := skills_result.matched
    missing_skills := skills_result.missing
    keyword_matches := keywords_result.matchesKw }

/-! ### Resume parser service (`app/services/resume_parser_service.py`)

Several methods are defined twice in the Python class body; the later
definition wins at runtime, and only those live definitions are embedded
(e.g. `_extract_section` from the end of the file, without the
header-length check of the shadowed early version; the eight-line-limit
`_extract_education_from_full_text`; the enhanced `_extract_dates_from_line`).
External collaborators are oracle parameters: the text extractor and file
info (results passed in), the spaCy pipeline (`nlp : Option (String →
List String)` giving noun-chunk texts), `dateutil.parser.parse`
(`dparse : String → Option Int`, a proleptic day number or `none` when it
raises) and `datetime.now()` (`now : Int`). -/

/-- The `skills_database` taxonomy, in dictionary insertion order. -/
def skills_database : List (String × List String) :=
  [("programming",
    ["python", "java", "javascript", "c++", "c#", "php", "ruby", "go", "rust",
     "swift", "kotlin", "scala", "r", "matlab", "sql", "nosql", "html", "css",
     "typescript", "dart", "perl", "lua", "haskell", "elixir", "clojure", "erlang",
     "f#", "objective-c", "assembly", "bash", "shell", "powershell"]),
   ("web_frameworks",
    ["react", "angular", "vue", "node", "express", "django",
     "spring", "laravel", "rails", "asp.net", "next.js", "nuxt.js", "svelte",
     "ember", "backbone", "meteor", "koa", "fastapi", "gin", "nestjs", "remix"]),
   ("databases",
    ["mysql", "postgresql", "mongodb", "redis", "oracle", "sql server",
     "firebase", "cassandra", "elasticsearch", "dynamodb", "neo4j", "couchdb",
     "sqlite", "mariadb", "amazon redshift", "snowflake", "bigquery", "hive"]),
   ("cloud",
    ["aws", "azure", "gcp", "docker", "kubernetes", "terraform",
     "jenkins", "ansible", "openshift", "heroku", "digitalocean", "linode",
     "cloudflare", "vercel", "netlify", "openshift", "rancher", "mesos",
     "lambda", "ec2", "s3", "eks", "ecs", "app engine", "cloud run"]),
   ("data_science",
    ["pandas", "numpy", "scikit-learn", "tensorflow", "pytorch",
     "keras", "matplotlib", "seaborn", "plotly", "spark", "hadoop",
     "tableau", "power bi", "qlik", "looker", "airflow", "kafka",
     "flink", "storm", "nltk", "spacy", "opencv", "xgboost", "lightgbm"]),
   ("devops",
    ["git", "github", "gitlab", "bitbucket", "jenkins", "circleci", "travis",
     "github actions", "gitlab ci", "ansible", "puppet", "chef", "saltstack",
     "prometheus", "grafana", "datadog", "new relic", "splunk", "elk stack"]),
   ("testing",
    ["jest", "mocha", "chai", "pytest", "unittest", "selenium", "cypress",
     "playwright", "junit", "testng", "postman", "soapui", "karma", "qunit"]),
   ("mobile",
    ["react native", "flutter", "xamarin", "ionic", "cordova", "android",
     "ios", "swiftui", "jetpack compose", "kotlin multiplatform"])]

def common_job_titles : List String :=
  ["software engineer", "software developer", "web developer", "frontend developer",
   "backend developer", "full stack developer", "data scientist", "data analyst",
   "machine learning engineer", "devops engineer", "system administrator",
   "network administrator", "product manager", "project manager", "ui designer",
   "ux designer", "graphic designer", "marketing manager", "sales representative",
   "business analyst", "financial analyst", "accountant", "hr manager",
   "operations manager", "ceo", "cto", "cfo", "coo", "intern", "associate",
   "consultant", "analyst", "specialist", "lead", "senior", "junior", "director",
   "architect", "coordinator", "administrator", "programmer", "scientist", "expert"]

def common_institutions : List String :=
  ["harvard", "stanford", "mit", "caltech", "berkeley", "oxford", "cambridge",
   "yale", "princeton", "columbia", "cornell", "university of", "state university",
   "community college", "institute of technology", "polytechnic", "college"]

/-- The `degree_types` dictionary; apostrophes are assembled explicitly. -/
def degree_types : List (String × List String) :=
  [("bachelor", ["bachelor", "b.s.", "b.a.", "bs", "ba", "bachelor" ++ aposS ++ "s", "b.sc"]),
   ("master", ["master", "m.s.", "m.a.", "ms", "ma", "master" ++ aposS ++ "s", "m.sc"]),
   ("doctorate", ["phd", "ph.d.", "doctorate", "doctor", "dr."]),
   ("associate", ["associate", "a.a.", "a.s.", "associate" ++ aposS ++ "s"]),
   ("certificate", ["certificate", "certification", "diploma"])]

def experience_section_headers : List String :=
  ["experience", "work experience", "professional experience", "employment",
   "career", "work history", "positions", "roles", "job history", "professional background"]

def education_section_headers : List String :=
  ["education", "academic background", "qualifications", "degrees",
   "academic", "university", "college", "school", "academic history"]

def skills_section_headers : List String :=
  ["skills", "technologies", "tools", "competencies", "abilities",
   "technical skills", "expertise", "proficiencies"]

/-- The section-header list inside the live `_extract_section`. -/
def sectionHeaderWords : List String :=
  ["experience", "work", "employment", "education", "academic",
   "skills", "projects", "certifications", "awards", "publications",
   "references", "contact", "summary", "objective"]

/-- The live `_extract_section` (the second definition in the class body):
the section starts at the first line containing a keyword, and ends just
before the next short line (at most 4 words) containing any known section
header. -/
def extract_section (keywords : List String) (text : List Char) :
    Option (List Char) :=
  let lines := splitCh '\n' text
  match lines.findIdx? (fun line =>
      keywords.any (fun kw => substr kw.data (pyLower (pyStrip line)))) with
  | none => none
  | some section_start =>
    let restLines := lines.drop (section_start + 1)
    let section_end :=
      match restLines.findIdx? (fun line =>
          let line_lower := pyLower (pyStrip line)
          sectionHeaderWords.any (fun h => substr h.data line_lower) &&
            decide ((splitWs line_lower).length ≤ 4)) with
      | some off => section_start + 1 + off
      | none => lines.length
    let section_lines := (lines.take section_end).drop section_start
    if section_lines ≠ [] then some (pyJoin ("\n".data) section_lines) else none

/-- `_is_section_header` (used by the full-text fallback extractors). -/
def is_section_header (line : List Char) : Bool :=
  let line_lower := pyLower (pyStrip line)
  ["education", "skills", "projects", "certifications", "awards",
   "publications", "references", "contact", "summary", "objective"].any
    (fun h => substr h.data line_lower)

/-- One bucketing step of `_extract_skills`: append `skill` to the bucket
determined by `category`.  The buckets are (technical, soft, tools,
frameworks, languages). -/
abbrev Buckets :=
  List (List Char) × List (List Char) × List (List Char) ×
    List (List Char) × List (List Char)

def skillsBucketAdd (category : String) (skill : List Char) (b : Buckets) :
    Buckets :=
  let (technical, soft, tools, frameworks, languages) := b
  if category = "programming" then
    (technical, soft, tools, frameworks, languages ++ [skill])
  else if category = "web_frameworks" then
    (technical, soft, tools, frameworks ++ [skill], languages)
  else if category = "databases" ∨ category = "cloud" ∨
      category = "data_science" ∨ category = "devops" then
    (technical, soft, tools ++ [skill], frameworks, languages)
  else
    (technical ++ [skill], soft, tools, frameworks, languages)

/-- `_extract_skills`: the skills-section scan, the spaCy noun-chunk scan
and the whole-document fallback, all of which test taxonomy terms by
plain substring containment (`skill in text`), followed by
case-preserving dedup-and-sort of each bucket.  `doc` is the spaCy
oracle: `some chunks` gives the noun-chunk texts, `none` models the
pipeline being unavailable. -/
def extract_skills (raw_text : List Char) (doc : Option (List String)) : Skills :=
  let empty5 : Buckets := ([], [], [], [], [])
  -- local `skills_section_keywords` list of `_extract_skills`
  let skills_section_keywords :=
    ["skills", "technologies", "tools", "competencies", "abilities"]
  let b1 :=
    match extract_section skills_section_keywords raw_text with
    | some skills_section =>
      let skills_text := pyLower skills_section
      skills_database.foldl (fun (acc : Buckets) (cat : String × List String) =>
        cat.2.foldl (fun (acc : Buckets) (skill : String) =>
          if substr skill.data skills_text then skillsBucketAdd cat.1 skill.data acc
          else acc) acc) empty5
    | none => empty5
  let (t1, _s1, to1, f1, l1) := b1
  let b2 :=
    if t1 = [] ∧ to1 = [] ∧ f1 = [] ∧ l1 = [] then
      match doc with
      | some chunks =>
        chunks.foldl (fun (acc : Buckets) (chunk : String) =>
          let skill_text := pyStrip (pyLower chunk.data)
          skills_database.foldl (fun (acc : Buckets) (cat : String × List String) =>
            let (technical, _, _, _, _) := acc
            if cat.2.any (fun s => s.data = skill_text) ∧
                ¬ technical.contains skill_text then
              skillsBucketAdd cat.1 skill_text acc
            else acc) acc) b1
      | none => b1
    else b1
  let (t2, _s2, to2, f2, l2) := b2
  let b3 :=
    if t2 = [] ∧ to2 = [] ∧ f2 = [] ∧ l2 = [] then
      let text_lower := pyLower raw_text
      skills_database.foldl (fun (acc : Buckets) (cat : String × List String) =>
        cat.2.foldl (fun (acc : Buckets) (skill : String) =>
          if substr skill.data text_lower then skillsBucketAdd cat.1 skill.data acc
          else acc) acc) b2
    else b2
  let (technical, soft, tools, frameworks, languages) := b3
  { technical := (sortedSet technical).map String.mk
    soft := (sortedSet soft).map String.mk
    tools := (sortedSet tools).map String.mk
    frameworks := (sortedSet frameworks).map String.mk
    languages := (sortedSet languages).map String.mk }

/-! #### Education extraction -/

/-- `re.search(r'\d{4}', line)` as a boolean: four consecutive digits. -/
def hasFourDigits (line : List Char) : Bool :=
  reTest (rcat [rdigit, rdigit, rdigit, rdigit]) line

/-- The live `_is_education_line`. -/
def is_education_line (line : List Char) : Bool :=
  let line_lower := pyLower line
  common_institutions.any (fun i => substr i.data line_lower) ||
    degree_types.any (fun dt => dt.2.any (fun d => substr d.data line_lower)) ||
    hasFourDigits line

/-- `r'\b(19|20)\d{2}\b'`; `findall` on this single-group pattern returns
the group texts (`"19"`/`"20"`), not the full years. -/
def yearPat1920 : RE :=
  rcat [rwb, .grp 1 (ralt [rstr "19", rstr "20"]), rdigit, rdigit, rwb]

def monthAbbrevNames : List String :=
  ["jan", "feb", "mar", "apr", "may", "jun", "jul", "aug", "sep", "oct", "nov", "dec"]

/-- `r'\b(?:jan|…|dec)[a-z]*\s+(?:19|20)\d{2}\b'` (with `IGNORECASE`,
so `[a-z]` matches any letter). -/
def gradMonthYearPat : RE :=
  rcat [rwb, ralt (monthAbbrevNames.map rstrCI), rstar true (rlowercls true),
        rplus true rws, ralt [rstr "19", rstr "20"], rdigit, rdigit, rwb]

/-- `r'\b\d{1,2}/(?:19|20)\d{2}\b'`. -/
def gradSlashYearPat : RE :=
  rcat [rwb, rrep rdigit 1 2, rchr '/', ralt [rstr "19", rstr "20"],
        rdigit, rdigit, rwb]

/-- `_extract_graduation_dates`: the first pattern contributes its group
texts (see `yearPat1920`), the other two their full matches; duplicates
are dropped keeping first occurrences. -/
def extract_graduation_dates (line : List Char) : List (List Char) :=
  (reFindAll1 yearPat1920 line ++ reFindAll gradMonthYearPat line ++
    reFindAll gradSlashYearPat line).dedup

/-- `_is_graduation_date_line`. -/
def is_graduation_date_line (line : List Char) : Bool := reTest yearPat1920 line

/-- `_extract_field_of_study` (the live, two-pattern version):
`r'(?:major|field of study|concentration):\s*([^\n,]+)'` and
`r'(?:bachelor|master|doctorate|associate)[^,]*in\s+([^\n,]+)'`. -/
def fosLabelPat : RE :=
  rcat [ralt [rstrCI "major", rstrCI "field of study", rstrCI "concentration"],
        rchr ':', rstar true rws,
        .grp 1 (rplus true (.cls (fun c => c ≠ '\n' ∧ c ≠ ',')))]

def fosDegreeInPat : RE :=
  rcat [ralt [rstrCI "bachelor", rstrCI "master", rstrCI "doctorate", rstrCI "associate"],
        rstar true (.cls (fun c => c ≠ ',')), rstrCI "in", rplus true rws,
        .grp 1 (rplus true (.cls (fun c => c ≠ '\n' ∧ c ≠ ',')))]

def extract_field_of_study (line : List Char) : Option (List Char) :=
  match reSearch fosLabelPat line with
  | some (_, _, caps) => some (pyStrip (capGetD line caps 1))
  | none =>
    match reSearch fosDegreeInPat line with
    | some (_, _, caps) => some (pyStrip (capGetD line caps 1))
    | none => none

/-- `_is_field_of_study_line`: `r'major|field of study|concentration|in\s+\w+'`. -/
def is_field_of_study_line (line : List Char) : Bool :=
  reTest (ralt [rstrCI "major", rstrCI "field of study", rstrCI "concentration",
                rcat [rstrCI "in", rplus true rws, rwordc]]) line

/-- `[0-9]\.[0-9]{1,3}`, the GPA number shape. -/
def gpaNumPat : RE := rcat [rdigit, rchr '.', rrep rdigit 1 3]

/-- `[0-9]{1,3}(?:\.[0-9]{1,2})?`, the percentage number shape. -/
def pctNumPat : RE :=
  rcat [rrep rdigit 1 3, ropt true (rcat [rchr '.', rrep rdigit 1 2])]

/-- The six `gpa_patterns` of `_extract_gpa_or_percentage`, in order. -/
def gpaPatterns : List RE :=
  [rcat [ralt [rstrCI "gpa", rstrCI "grade point average"],
         rstar true (.cls (fun c => c = ':' ∨ isSpaceCh c)), .grp 1 gpaNumPat],
   rcat [.grp 1 gpaNumPat, rstar true rws,
         ralt [rstrCI "gpa", rstrCI "out of 4.0", rstrCI "out of 4"]],
   rcat [ralt [rstrCI "gpa", rstrCI "grade point average"], rstar true rws,
         rstrCI "of", rstar true rws, .grp 1 gpaNumPat],
   rcat [ralt [rstrCI "percentage", rstrCI "percent"],
         rstar true (.cls (fun c => c = ':' ∨ isSpaceCh c)), .grp 1 pctNumPat, rchr '%'],
   rcat [.grp 1 pctNumPat, rchr '%', rstar true rws,
         ralt [rstrCI "percentage", rstrCI "percent"]],
   rcat [.grp 1 pctNumPat, rchr '/', pctNumPat, rstar true rws,
         ralt [rstrCI "gpa", rstrCI "points"]]]

/-- `r'\b([0-9]\.[0-9]{1,3})\b'`, the simple trailing check. -/
def simpleGpaPat : RE := rcat [rwb, .grp 1 gpaNumPat, rwb]

/-- `_extract_gpa_or_percentage`. -/
def extract_gpa_or_percentage (line : List Char) : Option (List Char) :=
  if line = [] ∨ pyStrip line = [] then none
  else
    match gpaPatterns.findSome? (fun pat =>
        (reSearch pat line).map (fun t => pyStrip (capGetD line t.2.2 1))) with
    | some g => some g
    | none =>
      match reSearch simpleGpaPat line with
      | some (_, _, caps) =>
        if substr ("gpa".data) (pyLower line) then some (pyStrip (capGetD line caps 1))
        else none
      | none => none

/-- `_is_gpa_line`. -/
def is_gpa_line (line : List Char) : Bool :=
  reTest (ralt [rstrCI "gpa", rstrCI "grade point average",
                rstrCI "percentage", rstrCI "percent"]) line

/-- `_is_achievement_line` (shared by experience and education parsing). -/
def is_achievement_line (line : List Char) : Bool :=
  let line_lower := pyLower line
  ["dean", "honor", "scholarship", "award", "prize", "summa", "magna",
   "cum laude", "president", "research", "thesis", "dissertation", "project",
   "publication"].any (fun i => substr i.data line_lower)

/-- `r'^[\-\•\*\·\d\.\)]+\s*'`, the bullet-marker prefix stripped from
achievement and description lines. -/
def bulletMarkPat : RE :=
  rcat [rbol,
        rplus true (.cls (fun c =>
          c = '-' ∨ c = '•' ∨ c = '*' ∨ c = '·' ∨ isDigitCh c ∨ c = '.' ∨ c = ')')),
        rstar true rws]

/-- `_extract_achievement`. -/
def extract_achievement (line : List Char) : List Char :=
  pyStrip (reSub bulletMarkPat [] line)

/-- `line.startswith(('-', '•', '*', '·')) or re.match(r'^\d+[\.\)]', line)`,
the bullet test of the entry parsers. -/
def isBulletLine (line : List Char) : Bool :=
  startsWith ("-".data) line || startsWith ("•".data) line ||
    startsWith ("*".data) line || startsWith ("·".data) line ||
    (reMatchAt0 (rcat [rplus true rdigit, rset ".)"]) line).isSome

/-- `r'^[A-Z][a-zA-Z]+(?:\s+[A-Z][a-zA-Z]+)*$'` (case-sensitive), used via
`re.match` as a proper-noun shape test. -/
def properNounFullPat : RE :=
  rcat [.cls isUpperCh, rplus true ralphacls,
        rstar true (rcat [rplus true rws, .cls isUpperCh, rplus true ralphacls]),
        reol]

/-- `_looks_like_institution`. -/
def looks_like_institution (text : List Char) : Bool :=
  let text_lower := pyLower text
  ["university", "college", "institute", "school", "academy", "faculty"].any
      (fun i => substr i.data text_lower) ||
    (reMatchAt0 properNounFullPat (pyStrip text)).isSome

/-- `B.?A`-style degree alternative under `IGNORECASE`: the letters with
an optional dot between them. -/
def degAbbrev2 (a b : Char) : RE := rcat [rchrCI a, ropt true (rchr '.'), rchrCI b]

def degAbbrev3 (a b c : Char) : RE :=
  rcat [rchrCI a, ropt true (rchr '.'), rchrCI b, rchrCI c]

/-- The five `degree_patterns` of `_extract_degree_from_text`, in order:
`\b(?:Bachelor|B\.?A\.?|B\.?S\.?|B\.?Sc\.?)\b` and the master, doctor,
associate and diploma variants. -/
def degreeShapePatterns : List RE :=
  [rcat [rwb, ralt [rstrCI "bachelor",
          rcat [degAbbrev2 'b' 'a', ropt true (rchr '.')],
          rcat [degAbbrev2 'b' 's', ropt true (rchr '.')],
          rcat [degAbbrev3 'b' 's' 'c', ropt true (rchr '.')]], rwb],
   rcat [rwb, ralt [rstrCI "master",
          rcat [degAbbrev2 'm' 'a', ropt true (rchr '.')],
          rcat [degAbbrev2 'm' 's', ropt true (rchr '.')],
          rcat [degAbbrev3 'm' 's' 'c', ropt true (rchr '.')]], rwb],
   rcat [rwb, ralt [rstrCI "doctor",
          rcat [rchrCI 'p', rchrCI 'h', ropt true (rchr '.'),
                rchrCI 'd', ropt true (rchr '.')]], rwb],
   rcat [rwb, ralt [rstrCI "associate",
          rcat [degAbbrev2 'a' 'a', ropt true (rchr '.')],
          rcat [degAbbrev2 'a' 's', ropt true (rchr '.')]], rwb],
   rcat [rwb, ralt [rstrCI "diploma", rstrCI "certificate"], rwb]]

/-- `r'\b' + re.escape(keyword) + r'\b'` with `IGNORECASE`. -/
def keywordWordPat (kw : String) : RE := rcat [rwb, rstrCI kw, rwb]

/-- The matched text of a search result. -/
def matchedText (s : List Char) (t : Nat × Nat × Caps) : List Char :=
  (s.drop t.1).take (t.2.1 - t.1)

/-- `_extract_degree_from_text`. -/
def extract_degree_from_text (text : List Char) : List Char :=
  if text = [] ∨ pyStrip text = [] then "Degree not specified".data
  else
    let text_lower := pyLower text
    match degree_types.findSome? (fun dt =>
        if dt.2.any (fun kw => substr kw.data text_lower) then
          some (match dt.2.findSome? (fun kw =>
              if substr kw.data text_lower then
                (reSearch (keywordWordPat kw) text).map
                  (fun t => pyCapitalize (matchedText text t))
              else none) with
            | some capitalized => capitalized
            | none => pyCapitalize dt.1.data)
        else none) with
    | some result => result
    | none =>
      match degreeShapePatterns.findSome? (fun pat =>
          (reSearch pat text).map (matchedText text)) with
      | some shape => shape
      | none =>
        if 3 < (pyStrip text).length then pyStrip text
        else "Degree not specified".data

/-- `degree_institution_pattern` of the live `_parse_first_education_line`:
`r'^(.*?)(?:\s+(?:at|from|@)\s+|,\s*)(.*?)(?:\s*-\s*|$)'` with
`IGNORECASE`. -/
def eduFirstLinePat : RE :=
  rcat [rbol, .grp 1 (rstar false rdot),
        ralt [rcat [rplus true rws, ralt [rstrCI "at", rstrCI "from", rstrCI "@"],
                    rplus true rws],
              rcat [rchr ',', rstar true rws]],
        .grp 2 (rstar false rdot),
        ralt [rcat [rstar true rws, rchr '-', rstar true rws], reol]]

/-- The separator alternation `re.split`s the education first line with
(case-sensitive): `\s+at\s+`, `\s+from\s+`, `\s*[-–]\s*`, `\s*[|]\s*`,
`\s*[,]\s*`, `\s+with\s+`, `\s+in\s+`, `\s*[:]\s*`. -/
def eduSeparatorsPat : RE :=
  ralt [rcat [rplus true rws, rstr "at", rplus true rws],
        rcat [rplus true rws, rstr "from", rplus true rws],
        rcat [rstar true rws, rset "-–", rstar true rws],
        rcat [rstar true rws, rchr '|', rstar true rws],
        rcat [rstar true rws, rchr ',', rstar true rws],
        rcat [rplus true rws, rstr "with", rplus true rws],
        rcat [rplus true rws, rstr "in", rplus true rws],
        rcat [rstar true rws, rchr ':', rstar true rws]]

/-- `_extract_field_of_study_from_text`.  With `IGNORECASE`, the
`[A-Z][a-z]+` word shapes match any-case letters. -/
def fosWordCI : RE := rcat [ruppercls true, rplus true (rlowercls true)]

def fosFromTextPatterns : List RE :=
  [rcat [ralt [rstrCI "major", rstrCI "field of study", rstrCI "concentration",
               rstrCI "specialization", rstrCI "focus area"],
         rplus true (.cls (fun c => c = ':' ∨ isSpaceCh c)),
         .grp 1 (rplus true (.cls (fun c => c ≠ '\n' ∧ c ≠ ',')))],
   rcat [ralt [rstrCI "bachelor", rstrCI "master", rstrCI "doctorate", rstrCI "associate"],
         rstar true (.cls (fun c => c ≠ ',')), rplus true rws, rstrCI "in",
         rplus true rws, .grp 1 (rplus true (.cls (fun c => c ≠ '\n' ∧ c ≠ ',')))],
   rcat [rchr ',', rstar true rws,
         .grp 1 (rcat [fosWordCI, rstar true (rcat [rplus true rws, fosWordCI]),
                       rstar true (rcat [rplus true rws, rstrCI "and", rplus true rws,
                                         fosWordCI,
                                         rstar true (rcat [rplus true rws, fosWordCI])])]),
         reol],
   rcat [rwb, ralt [rstrCI "in", rstrCI "of"], rplus true rws,
         .grp 1 (rcat [fosWordCI, rstar true (rcat [rplus true rws, fosWordCI])])]]

def extract_field_of_study_from_text (text : List Char) : List Char :=
  if text = [] ∨ pyStrip text = [] then []
  else
    match fosFromTextPatterns.findSome? (fun pat =>
        match reSearch pat text with
        | some (_, _, caps) =>
          let field_candidate := pyStrip (capGetD text caps 1)
          if ¬ (["bachelor", "master", "doctor", "associate"].any
              (fun d => substr d.data (pyLower field_candidate))) then
            some field_candidate
          else none
        | none => none) with
    | some field => field
    | none =>
      let text_clean := pyStrip text
      if text_clean ≠ [] ∧
          ¬ (["bachelor", "master", "doctor", "associate", "degree"].any
            (fun d => substr d.data (pyLower text_clean))) ∧
          (splitWs text_clean).length ≤ 5 then
        text_clean
      else []

/-- The live `_parse_first_education_line` (the third definition in the
class body): returns (institution, degree, field_of_study). -/
def parse_first_education_line (line : List Char) :
    List Char × List Char × List Char :=
  match reSearch eduFirstLinePat line with
  | some (_, _, caps) =>
    let degree_part := pyStrip (capGetD line caps 1)
    let institution_part := pyStrip (capGetD line caps 2)
    (institution_part, extract_degree_from_text degree_part,
     extract_field_of_study_from_text degree_part)
  | none =>
    let parts := (reSplit eduSeparatorsPat line).map pyStrip |>.filter (· ≠ [])
    if 2 ≤ parts.length then
      let idxInst := parts.findIdx? looks_like_institution
      match idxInst with
      | some i =>
        let institution := parts.getD i []
        if 0 < i then
          let degree_info := parts.getD (i - 1) []
          (institution, extract_degree_from_text degree_info,
           extract_field_of_study_from_text degree_info)
        else if i < parts.length - 1 then
          let degree_info := parts.getD (i + 1) []
          (institution, extract_degree_from_text degree_info,
           extract_field_of_study_from_text degree_info)
        else (institution, [], [])
      | none =>
        -- fallback: first part as institution, second carries the degree
        let institution := parts.getD 0 []
        if 1 < parts.length then
          let degree_info := parts.getD 1 []
          (institution, extract_degree_from_text degree_info,
           extract_field_of_study_from_text degree_info)
        else (institution, [], [])
    else
      match parts with
      | [part] =>
        if looks_like_institution part then (part, [], [])
        else ([], extract_degree_from_text part, extract_field_of_study_from_text part)
      | _ => ([], [], [])

/-- `r'\b(?:University|College|Institute|School|Academy)\b'`. -/
def instKeywordPat : RE :=
  rcat [rwb, ralt [rstrCI "university", rstrCI "college", rstrCI "institute",
                   rstrCI "school", rstrCI "academy"], rwb]

/-- `r'^[A-Z][a-zA-Z]*(?:\s+[A-Z][a-zA-Z]*){1,5}$'`, searched with
`IGNORECASE` (so the case distinction vanishes). -/
def properNoun15Pat : RE :=
  rcat [rbol, ruppercls true, rstar true ralphacls,
        .rep (rcat [rplus true rws, ruppercls true, rstar true ralphacls]) 1 (some 5) true,
        reol]

/-- `r'\b(?:Bachelor|Master|Doctor|Ph\.?D|B\.?A|B\.?S|B\.?Sc|M\.?A|M\.?S|M\.?Sc|Ph\.?D)\b'`. -/
def degDetailPat1 : RE :=
  rcat [rwb, ralt [rstrCI "bachelor", rstrCI "master", rstrCI "doctor",
          rcat [rchrCI 'p', rchrCI 'h', ropt true (rchr '.'), rchrCI 'd'],
          degAbbrev2 'b' 'a', degAbbrev2 'b' 's', degAbbrev3 'b' 's' 'c',
          degAbbrev2 'm' 'a', degAbbrev2 'm' 's', degAbbrev3 'm' 's' 'c',
          rcat [rchrCI 'p', rchrCI 'h', ropt true (rchr '.'), rchrCI 'd']], rwb]

/-- `r'\b(?:Degree|Diploma|Certificate)\b'`. -/
def degDetailPat2 : RE :=
  rcat [rwb, ralt [rstrCI "degree", rstrCI "diploma", rstrCI "certificate"], rwb]

/-- The three `field_patterns` of `_extract_education_details`. -/
def fldDetailPatterns : List RE :=
  [rcat [ralt [rstrCI "major", rstrCI "field of study", rstrCI "concentration",
               rstrCI "specialization", rstrCI "focus area"],
         rplus true (.cls (fun c => c = ':' ∨ isSpaceCh c)),
         .grp 1 (rplus true (.cls (fun c => c ≠ '\n' ∧ c ≠ ',')))],
   rcat [ralt [rstrCI "bachelor", rstrCI "master", rstrCI "doctor"],
         rstar true (.cls (fun c => c ≠ ',')), rplus true rws, rstrCI "in",
         rplus true rws, .grp 1 (rplus true (.cls (fun c => c ≠ '\n' ∧ c ≠ ',')))],
   rcat [rchr ',', rstar true rws,
         .grp 1 (rcat [rplus true (.cls (fun c => c ≠ ',')), rplus true rws,
                       ralt [rstrCI "studies", rstrCI "science", rstrCI "engineering",
                             rstrCI "business", rstrCI "arts"]])]]

/-- `r'\s+in\s+([^,\.\n]+)'` with `IGNORECASE`. -/
def inFieldPat : RE :=
  rcat [rplus true rws, rstrCI "in", rplus true rws,
        .grp 1 (rplus true (.cls (fun c => c ≠ ',' ∧ c ≠ '.' ∧ c ≠ '\n')))]

/-- `_extract_education_details`: scans the lines for institution, degree
and field-of-study patterns, then applies the three fallbacks. -/
def extract_education_details (lines : List (List Char)) :
    List Char × List Char × List Char :=
  let step := fun (acc : List Char × List Char × List Char) (line : List Char) =>
    let (institution, degree, fos) := acc
    let institution :=
      if institution = [] then
        if reTest instKeywordPat line ∨ reTest properNoun15Pat line then pyStrip line
        else []
      else institution
    let degree :=
      if degree = [] then
        if reTest degDetailPat1 line ∨ reTest degDetailPat2 line then
          extract_degree_from_text line
        else []
      else degree
    let fos :=
      if fos = [] then
        match fldDetailPatterns.findSome? (fun pat =>
            match reSearch pat line with
            | some (_, _, caps) =>
              let field_candidate := pyStrip (capGetD line caps 1)
              if ¬ (["bachelor", "master", "doctor"].any
                  (fun d => substr d.data (pyLower field_candidate))) then
                some field_candidate
              else none
            | none => none) with
        | some f => f
        | none => []
      else fos
    (institution, degree, fos)
  let (institution, degree, fos) := lines.foldl step ([], [], [])
  let institution :=
    if institution = [] then
      match lines.findSome? (fun line =>
          if (reMatchAt0 properNounFullPat (pyStrip line)).isSome ∧
              (["university", "college", "institute", "school"].any
                (fun kw => substr kw.data (pyLower line))) then
            some (pyStrip line)
          else none) with
      | some i => i
      | none => []
    else institution
  let degree :=
    if degree = [] then
      match lines.findSome? (fun line =>
          let degree_candidate := extract_degree_from_text line
          if degree_candidate ≠ [] ∧ degree_candidate ≠ "Degree not specified".data then
            some degree_candidate
          else none) with
      | some d => d
      | none => []
    else degree
  let fos :=
    if fos = [] then
      match lines.findSome? (fun line =>
          match reSearch inFieldPat line with
          | some (_, _, caps) =>
            let field_candidate := pyStrip (capGetD line caps 1)
            if ¬ (["bachelor", "master", "doctor"].any
                (fun d => substr d.data (pyLower field_candidate))) then
              some field_candidate
            else none
          | none => none) with
      | some f => f
      | none => []
    else fos
  (institution, degree, fos)

/-- The state threaded through the middle loop of
`_parse_education_entry`. -/
structure EduLoopState where
  graduation_date : List Char
  gpa : List Char
  field_of_study : List Char
  achievements : List (List Char)

/-- One iteration of the line loop of `_parse_education_entry`. -/
def eduLoopStep (first_line : List Char) (st : EduLoopState) (line : List Char) :
    EduLoopState :=
  let graduation_date :=
    if st.graduation_date = [] then
      match extract_graduation_dates line with
      | d :: _ => d
      | [] => []
    else st.graduation_date
  let gpa :=
    if st.gpa = [] then
      match extract_gpa_or_percentage line with
      | some g => g
      | none => []
    else st.gpa
  let field_of_study :=
    if st.field_of_study = [] then
      match extract_field_of_study line with
      | some f => f
      | none => []
    else st.field_of_study
  let achievements :=
    if is_achievement_line line then
      let a := extract_achievement line
      if a ≠ [] then st.achievements ++ [a] else st.achievements
    else st.achievements
  -- the enhanced categorization block; its two inner non-bullet branches
  -- are unreachable because their guards contradict the outer conditions,
  -- and are transcribed as written
  let achievements :=
    if ¬ is_graduation_date_line line ∧ ¬ is_gpa_line line ∧
        ¬ is_field_of_study_line line ∧ ¬ is_achievement_line line ∧
        line ≠ first_line then
      if isBulletLine line then
        let a := extract_achievement line
        if a ≠ [] then achievements ++ [a] else achievements
      else if 20 < line.length then
        if is_achievement_line line then
          let a := extract_achievement line
          if a ≠ [] then achievements ++ [a] else achievements
        else achievements
      else achievements
    else achievements
  let field_of_study :=
    if ¬ is_graduation_date_line line ∧ ¬ is_gpa_line line ∧
        ¬ is_field_of_study_line line ∧ ¬ is_achievement_line line ∧
        line ≠ first_line ∧ ¬ isBulletLine line ∧ 20 < line.length ∧
        ¬ is_achievement_line line ∧ is_field_of_study_line line ∧
        field_of_study = [] then
      match extract_field_of_study line with
      | some f => f
      | none => field_of_study
    else field_of_study
  { graduation_date := graduation_date, gpa := gpa,
    field_of_study := field_of_study, achievements := achievements }

/-- The live `_parse_education_entry`.  The `duration` local of the source
is initialized to `None`, never reassigned, and the pydantic `Education`
model has no such field, so it does not appear here. -/
def parse_education_entry (entry : List Char) : Option Education :=
  let lines := ((splitCh '\n' entry).map pyStrip).filter (· ≠ [])
  match lines with
  | [] => none
  | first_line :: restLines =>
    let (institution, degree, field_of_study) := parse_first_education_line first_line
    let st := restLines.foldl (eduLoopStep first_line)
      { graduation_date := [], gpa := [], field_of_study := field_of_study,
        achievements := [] }
    let (institution, degree, field_of_study) :=
      if institution = [] ∨ degree = [] then extract_education_details lines
      else (institution, degree, st.field_of_study)
    let all_dates := (lines.map extract_graduation_dates).flatten
    let graduation_date :=
      if st.graduation_date = [] then
        match all_dates with
        | d :: _ => d
        | [] => []
      else st.graduation_date
    if institution ≠ [] then
      let cleaned_achievements :=
        (st.achievements.map (fun a => pyStrip (reSub bulletMarkPat [] a))).filter
          (· ≠ [])
      let degree := if degree = [] then "Degree not specified".data else degree
      let field_of_study :=
        if field_of_study = [] then
          match lines.findSome? (fun line =>
              let f := extract_field_of_study_from_text line
              if f ≠ [] then some f else none) with
          | some f => f
          | none => []
        else field_of_study
      some { institution := String.mk institution
             degree := String.mk degree
             field_of_study := String.mk field_of_study
             graduation_date := some (String.mk graduation_date)
             gpa := some (String.mk st.gpa)
             achievements := cleaned_achievements.map String.mk }
    else none

/-- The inner line-collection loop shared by the two full-text fallback
extractors: gather stripped non-empty lines after the trigger line until
a new trigger or section header, stopping once `limit` lines are
collected. -/
def collectEntryLines (isBreakLine : List Char → Bool) (limit : Nat)
    (acc : List (List Char)) : List (List Char) → List (List Char)
  | [] => acc
  | l :: rest =>
    if limit ≤ acc.length then acc
    else
      let next_line := pyStrip l
      if isBreakLine next_line then acc
      else
        collectEntryLines isBreakLine limit
          (if next_line ≠ [] then acc ++ [next_line] else acc) rest

/-- The scanning loop of the live `_extract_education_from_full_text`
(entry text limited to 8 lines; the scan advances one line at a time, so
consecutive trigger lines produce one entry each). -/
def eduFullTextGo : List (List Char) → List Education
  | [] => []
  | l :: rest =>
    let line := pyStrip l
    if line = [] then eduFullTextGo rest
    else if is_education_line line then
      let entry_lines := collectEntryLines
        (fun nl => is_education_line nl || is_section_header nl) 8 [line] rest
      let entry_text := pyJoin ("\n".data) entry_lines
      match parse_education_entry entry_text with
      | some edu => edu :: eduFullTextGo rest
      | none => eduFullTextGo rest
    else eduFullTextGo rest

/-- The live `_extract_education_from_full_text`. -/
def extract_education_from_full_text (raw_text : List Char) : List Education :=
  eduFullTextGo (splitCh '\n' raw_text)

/-! #### Experience extraction -/

/-- First occurrence offset of `sep` in `s`. -/
def findSubAux (sep : List Char) : Nat → Nat → List Char → Option Nat
  | _, i, [] => if sep.isEmpty then some i else none
  | 0, _, _ => none
  | fuel + 1, i, c :: t =>
    if sep.isPrefixOf (c :: t) then some i else findSubAux sep fuel (i + 1) t

def findSub (sep s : List Char) : Option Nat :=
  findSubAux sep (s.length + 1) 0 s

/-- Python `str.split(sep, 1)`: split at the first occurrence only;
`none` when `sep` does not occur (Python then returns the one-element
list). -/
def pySplitSubOnce (sep s : List Char) : Option (List Char × List Char) :=
  match findSub sep s with
  | some i => some (s.take i, s.drop (i + sep.length))
  | none => none

/-- Python `str.split(sep)` for a multi-character separator. -/
def pySplitSubAux (sep : List Char) : Nat → List Char → List (List Char)
  | _, [] => [[]]
  | 0, s => [s]
  | fuel + 1, c :: t =>
    if 0 < sep.length ∧ sep.isPrefixOf (c :: t) then
      [] :: pySplitSubAux sep fuel (t.drop (sep.length - 1))
    else
      match pySplitSubAux sep fuel t with
      | [] => [[c]]
      | h :: r => (c :: h) :: r

def pySplitSub (sep s : List Char) : List (List Char) :=
  pySplitSubAux sep s.length s

/-- `r'\d{4}|\d{1,2}[\x2f\x2d]\d{2,4}'` of `_is_job_title_line`. -/
def jtDatePat : RE :=
  ralt [rcat [rdigit, rdigit, rdigit, rdigit],
        rcat [rrep rdigit 1 2, rset "/-", rrep rdigit 2 4]]

/-- `r'^[A-Z][a-zA-Z]+(?:\s+[A-Z][a-zA-Z]+)*'` (no trailing anchor),
used via `re.match` as a title-case prefix test. -/
def titleCasePrefixPat : RE :=
  rcat [.cls isUpperCh, rplus true ralphacls,
        rstar true (rcat [rplus true rws, .cls isUpperCh, rplus true ralphacls])]

/-- `_is_job_title_line`. -/
def is_job_title_line (line : List Char) : Bool :=
  let line_lower := pyLower line
  -- job-title indicator substrings are tested on the original-case line
  (([" at ", " - ", " – ", " for ", "|", ":"] : List String).any
      (fun ind => substr ind.data line)) ||
    common_job_titles.any (fun t => substr t.data line_lower) ||
    reTest jtDatePat line ||
    ((reMatchAt0 titleCasePrefixPat (pyStrip line)).isSome &&
      decide ((splitWs line).length ≤ 6))

/-- `r'\d{4}|\d{1,2}[\x2f\x2d]\d{2,4}|present|current'` with `IGNORECASE`. -/
def newEntryDatePat : RE :=
  ralt [rcat [rdigit, rdigit, rdigit, rdigit],
        rcat [rrep rdigit 1 2, rset "/-", rrep rdigit 2 4],
        rstrCI "present", rstrCI "current"]

/-- `r'(inc\.?|corp\.?|ltd\.?|llc\.?|company|group|limited)'` with
`IGNORECASE`. -/
def companySuffixPat : RE :=
  ralt [rcat [rstrCI "inc", ropt true (rchr '.')],
        rcat [rstrCI "corp", ropt true (rchr '.')],
        rcat [rstrCI "ltd", ropt true (rchr '.')],
        rcat [rstrCI "llc", ropt true (rchr '.')],
        rstrCI "company", rstrCI "group", rstrCI "limited"]

/-- `r'[A-Z][a-z]+,\s*[A-Z]{2}'` (case-sensitive). -/
def cityStatePat : RE :=
  rcat [.cls isUpperCh, rplus true (.cls isLowerCh), rchr ',', rstar true rws,
        .cls isUpperCh, .cls isUpperCh]

/-- `r'^[A-Z][a-zA-Z\s]*[:\-–—]'` of `_is_new_experience_entry`. -/
def capSeparatorPat : RE :=
  rcat [.cls isUpperCh, rstar true (.cls (fun c => isAlphaCh c ∨ isSpaceCh c)),
        rset ":-–—"]

/-- `_is_new_experience_entry` (the unused `current_entry` parameter of
the source is dropped). -/
def is_new_experience_entry (lines : List (List Char)) (current_index : Nat) : Bool :=
  if current_index = 0 then true
  else
    let line := pyStrip (lines.getD current_index [])
    reTest newEntryDatePat line ||
      reTest companySuffixPat line ||
      common_job_titles.any (fun t => substr t.data (pyLower line)) ||
      reTest cityStatePat line ||
      (decide (0 < current_index) &&
        decide (pyStrip (lines.getD (current_index - 1) []) = []) &&
        is_job_title_line line) ||
      (reMatchAt0 capSeparatorPat line).isSome

/-- The indexed flush-and-collect loop shared by `_split_experience_entries`
and `_split_education_entries`. -/
def splitEntriesLoop (isNewAt : Nat → Bool) :
    List (List Char) → Nat → List (List Char) → List (List Char)
  | [], _, current =>
    if current ≠ [] then [pyJoin ("\n".data) current] else []
  | l :: rest, i, current =>
    let line := pyStrip l
    if line = [] then splitEntriesLoop isNewAt rest (i + 1) current
    else if isNewAt i ∧ current ≠ [] then
      pyJoin ("\n".data) current :: splitEntriesLoop isNewAt rest (i + 1) [line]
    else splitEntriesLoop isNewAt rest (i + 1) (current ++ [line])

/-- `_split_experience_entries`. -/
def split_experience_entries (exp_text : List Char) : List (List Char) :=
  let lines := splitCh '\n' exp_text
  let start_idx :=
    match lines with
    | first :: _ =>
      if experience_section_headers.any (fun kw => substr kw.data (pyLower first))
      then 1 else 0
    | [] => 0
  splitEntriesLoop (is_new_experience_entry lines) (lines.drop start_idx) start_idx []

/-- `_is_new_education_entry` (unused `current_entry` dropped). -/
def is_new_education_entry (lines : List (List Char)) (current_index : Nat) : Bool :=
  if current_index = 0 then true
  else
    let line := pyStrip (lines.getD current_index [])
    common_institutions.any (fun i => substr i.data (pyLower line)) ||
      degree_types.any (fun dt => dt.2.any (fun d => substr d.data (pyLower line))) ||
      hasFourDigits line ||
      (decide (0 < current_index) &&
        decide (pyStrip (lines.getD (current_index - 1) []) = []) &&
        is_education_line line)

/-- The live `_split_education_entries`. -/
def split_education_entries (edu_text : List Char) : List (List Char) :=
  let lines := splitCh '\n' edu_text
  let start_idx :=
    match lines with
    | first :: _ =>
      if (["education", "academic", "qualifications"] : List String).any
        (fun kw => substr kw.data (pyLower first)) then 1 else 0
    | [] => 0
  splitEntriesLoop (is_new_education_entry lines) (lines.drop start_idx) start_idx []

/-- The month-name alternation `(?:jan|feb|…|dec)`. -/
def monthsAltCI : RE := ralt (monthAbbrevNames.map rstrCI)

/-- The six date patterns of the live `_extract_dates_from_line`, in
order. -/
def expDatePatterns : List RE :=
  [rcat [rrep rdigit 1 2, rchr '/', rrep rdigit 2 4, rstar true rws,
         ropt true (rset "-–"), rstar true rws,
         ralt [rcat [rrep rdigit 1 2, rchr '/', rrep rdigit 2 4],
               rstrCI "present", rstrCI "current"]],
   rcat [rrep rdigit 4 4, rstar true rws, ropt true (rset "-–"), rstar true rws,
         ralt [rrep rdigit 4 4, rstrCI "present", rstrCI "current"]],
   rcat [monthsAltCI, rstar true (rlowercls true), rplus true rws, rrep rdigit 4 4],
   rcat [monthsAltCI, rstar true (rlowercls true), rplus true rws, rrep rdigit 1 2,
         ropt true (rchr ','), rplus true rws, rrep rdigit 4 4],
   rcat [rrep rdigit 1 2, rplus true rws, monthsAltCI, rstar true (rlowercls true),
         ropt true (rchr ','), rplus true rws, rrep rdigit 4 4],
   rcat [rrep rdigit 1 2, rset "/-", rrep rdigit 1 2, rset "/-", rrep rdigit 2 4]]

/-- The live `_extract_dates_from_line`: all pattern matches in pattern
order, then the single `"A - B"` range is split into its two endpoints. -/
def extract_dates_from_line (line : List Char) : List (List Char) :=
  let dates := (expDatePatterns.map (fun pat => reFindAll pat line)).flatten
  if dates.length = 1 ∧ substr (" - ".data) (dates.getD 0 []) then
    let parts := pySplitSub (" - ".data) (dates.getD 0 [])
    if parts.length = 2 then [pyStrip (parts.getD 0 []), pyStrip (parts.getD 1 [])]
    else dates
  else dates

/-- The live `_is_date_line`:
`r'\d{1,2}/\d{2,4}|\d{4}|present|current|jan|…|dec'` with `IGNORECASE`. -/
def is_date_line (line : List Char) : Bool :=
  reTest (ralt ([rcat [rrep rdigit 1 2, rchr '/', rrep rdigit 2 4],
                 rcat [rdigit, rdigit, rdigit, rdigit],
                 rstrCI "present", rstrCI "current"] ++
                monthAbbrevNames.map rstrCI)) line

/-- `[A-Z][a-z]+` (case-sensitive word shape). -/
def csWord : RE := rcat [.cls isUpperCh, rplus true (.cls isLowerCh)]

/-- The live `_extract_location_from_line`:
`r'([A-Z][a-z]+(?:\s+[A-Z][a-z]+)*,\s*[A-Z]{2})'`. -/
def locLinePat : RE :=
  .grp 1 (rcat [csWord, rstar true (rcat [rplus true rws, csWord]), rchr ',',
                rstar true rws, .cls isUpperCh, .cls isUpperCh])

def extract_location_from_line (line : List Char) : Option (List Char) :=
  (reSearch locLinePat line).map (fun t => capGetD line t.2.2 1)

/-- The live `_is_location_line`:
`r'[A-Z][a-z]+,\s*[A-Z]{2}|[A-Z][a-z]+\s+[A-Z][a-z]+'`. -/
def is_location_line (line : List Char) : Bool :=
  reTest (ralt [rcat [csWord, rchr ',', rstar true rws, .cls isUpperCh, .cls isUpperCh],
                rcat [csWord, rplus true rws, csWord]]) line

/-- `_contains_technical_terms`. -/
def contains_technical_terms (line : List Char) : Bool :=
  let line_lower := pyLower line
  skills_database.any (fun cat => cat.2.any (fun s => substr s.data line_lower))

/-- `_extract_technologies_from_line`: taxonomy terms occurring as
substrings, in taxonomy order, without duplicates. -/
def extract_technologies_from_line (line : List Char) : List (List Char) :=
  let line_lower := pyLower line
  skills_database.foldl (fun (acc : List (List Char)) cat =>
    cat.2.foldl (fun (acc : List (List Char)) s =>
      if substr s.data line_lower ∧ ¬ acc.contains s.data then acc ++ [s.data]
      else acc) acc) []

/-- `_is_purely_technical_line`: delete every taxonomy term, blank out
non-letters (one space per character), squeeze whitespace, and test
whether fewer than 10 characters remain. -/
def is_purely_technical_line (line : List Char) : Bool :=
  let cleaned := skills_database.foldl (fun (acc : List Char) cat =>
    cat.2.foldl (fun (acc : List Char) s => pyReplace s.data [] acc) acc)
    (pyLower line)
  let cleaned := reSub (.cls (fun c => ¬ isAlphaCh c)) (" ".data) cleaned
  let cleaned := pyStrip (reSub (rplus true rws) (" ".data) cleaned)
  cleaned.length < 10

/-- `at_pattern` of `_parse_first_experience_line`:
`r'^(.*?)\s+(?:at|@|for)\s+(.*?)(?:\s*-\s*|$)'` with `IGNORECASE`. -/
def expAtPat : RE :=
  rcat [rbol, .grp 1 (rstar false rdot), rplus true rws,
        ralt [rstrCI "at", rstrCI "@", rstrCI "for"], rplus true rws,
        .grp 2 (rstar false rdot),
        ralt [rcat [rstar true rws, rchr '-', rstar true rws], reol]]

/-- The separator alternation of `_parse_first_experience_line`
(case-sensitive): `\s+at\s+`, `\s+for\s+`, `\s*[-–]\s*`, `\s*[|]\s*`,
`\s*[,]\s*`, `\s+with\s+`, `\s+in\s+`, `\s*[:]\s*`. -/
def expSeparatorsPat : RE :=
  ralt [rcat [rplus true rws, rstr "at", rplus true rws],
        rcat [rplus true rws, rstr "for", rplus true rws],
        rcat [rstar true rws, rset "-–", rstar true rws],
        rcat [rstar true rws, rchr '|', rstar true rws],
        rcat [rstar true rws, rchr ',', rstar true rws],
        rcat [rplus true rws, rstr "with", rplus true rws],
        rcat [rplus true rws, rstr "in", rplus true rws],
        rcat [rstar true rws, rchr ':', rstar true rws]]

/-- `_parse_first_experience_line`: returns
(job_title, company, start_date, end_date, location). -/
def parse_first_experience_line (line : List Char) :
    List Char × List Char × List Char × List Char × List Char :=
  match reSearch expAtPat line with
  | some (_, _, caps) =>
    let job_title := pyStrip (capGetD line caps 1)
    let remaining := pyStrip (capGetD line caps 2)
    let date_matches := extract_dates_from_line remaining
    let start_date := date_matches.getD 0 []
    let end_date := if 1 < date_matches.length then date_matches.getD 1 [] else []
    let (location, remaining) :=
      match extract_location_from_line remaining with
      | some loc => (loc, pyStripChars (", ".data) (pyReplace loc [] remaining))
      | none => ([], remaining)
    let company :=
      if remaining ≠ [] then
        date_matches.foldl (fun acc d => pyStripChars (", ".data) (pyReplace d [] acc))
          remaining
      else []
    (job_title, company,
     (if date_matches = [] then [] else start_date), end_date, location)
  | none =>
    let parts := (reSplit expSeparatorsPat line).map pyStrip |>.filter (· ≠ [])
    if 2 ≤ parts.length then
      let job_title := parts.getD 0 []
      let company := parts.getD 1 []
      let (start_date, end_date, location) :=
        (parts.drop 2).foldl (fun (acc : List Char × List Char × List Char) part =>
          let (sd, ed, loc) := acc
          if is_date_line part then
            if sd = [] then (part, ed, loc)
            else if ed = [] then (sd, part, loc)
            else (sd, ed, loc)
          else if is_location_line part then (sd, ed, part)
          else (sd, ed, loc)) ([], [], [])
      (job_title, company, start_date, end_date, location)
    else ([], [], [], [], [])

/-- `job_title_patterns` of `_extract_job_title_and_company` (the leading
`(?:^|\s)` consumes a whitespace character unless at the start). -/
def jtShapePat1 : RE :=
  rcat [ralt [.asrt (fun _ p => p = 0), rws],
        ropt true (ralt [rstrCI "software", rstrCI "web", rstrCI "frontend",
          rstrCI "backend", rcat [rstrCI "full", rstar true rws, rstrCI "stack"],
          rstrCI "senior", rstrCI "junior", rstrCI "lead", rstrCI "principal"]),
        rstar true rws,
        ralt [rstrCI "developer", rstrCI "engineer", rstrCI "manager",
              rstrCI "analyst", rstrCI "consultant", rstrCI "specialist",
              rstrCI "director", rstrCI "associate"], rwb]

def jtShapePat2 : RE :=
  rcat [ralt [.asrt (fun _ p => p = 0), rws],
        ralt [rstrCI "programmer", rstrCI "designer", rstrCI "architect",
              rstrCI "administrator", rstrCI "coordinator"], rwb]

/-- `company_indicators` of `_extract_job_title_and_company`. -/
def companyIndicatorPat : RE :=
  rcat [rwb, ralt [rcat [rstrCI "inc", ropt true (rchr '.')],
          rcat [rstrCI "corp", ropt true (rchr '.')], rstrCI "corporation",
          rcat [rstrCI "llc", ropt true (rchr '.')],
          rcat [rstrCI "ltd", ropt true (rchr '.')], rstrCI "limited",
          rstrCI "group", rstrCI "company",
          rcat [rstrCI "co", ropt true (rchr '.')], rstrCI "gmbh",
          rcat [rchrCI 's', ropt true (rchr '.'), rchrCI 'a', ropt true (rchr '.')],
          rstrCI "sas", rstrCI "sa", rstrCI "ag"], rwb]

/-- The matched job-title text of the first matching shape pattern. -/
def jtShapeMatch (line : List Char) : Option (List Char) :=
  match reSearch jtShapePat1 line with
  | some t => some (pyStrip (matchedText line t))
  | none =>
    match reSearch jtShapePat2 line with
    | some t => some (pyStrip (matchedText line t))
    | none => none

def jtShapeTest (line : List Char) : Bool := (jtShapeMatch line).isSome

/-- `_extract_job_title_and_company`. -/
def extract_job_title_and_company (lines : List (List Char)) :
    List Char × List Char :=
  let step := fun (acc : List Char × List Char) (l : List Char) =>
    let (job_title, company) := acc
    let line := pyStrip l
    if line = [] then acc
    else
      let job_title :=
        if job_title = [] then
          match jtShapeMatch line with
          | some jt => jt
          | none => []
        else job_title
      let company :=
        if company = [] then
          if reTest companyIndicatorPat line then pyStrip line
          else if (reMatchAt0 properNounFullPat line).isSome ∧ ¬ jtShapeTest line then
            pyStrip line
          else []
        else company
      (job_title, company)
  let (job_title, company) := lines.foldl step ([], [])
  let job_title :=
    if job_title = [] then
      match lines with
      | first :: _ =>
        let first_line := pyStrip first
        if jtShapeTest first_line then first_line
        else if first_line ≠ [] ∧
            ¬ ((["inc", "corp", "llc", "ltd", "company"] : List String).any
              (fun ind => substr ind.data (pyLower first_line))) then
          first_line
        else []
      | [] => []
    else job_title
  let company :=
    if company = [] ∧ 1 < lines.length then
      let second_line := pyStrip (lines.getD 1 [])
      if ¬ jtShapeTest second_line then second_line else []
    else company
  (job_title, company)

/-- The mutable state of the line loop of `_parse_experience_entry`. -/
structure ExpLoopState where
  start_date : List Char
  end_date : List Char
  location : List Char
  description : List (List Char)
  achievements : List (List Char)
  technologies : List (List Char)
  is_current : Bool

/-- One iteration of the line loop of `_parse_experience_entry`. -/
def expLoopStep (first_line : List Char) (st : ExpLoopState) (line : List Char) :
    ExpLoopState :=
  let dates := extract_dates_from_line line
  let (start_date, end_date, is_current) :=
    if dates ≠ [] then
      let sd := if st.start_date = [] then dates.getD 0 [] else st.start_date
      if 1 < dates.length then
        let ed := dates.getD 1 []
        (sd, ed,
         substr ("present".data) (pyLower ed) || substr ("current".data) (pyLower ed))
      else (sd, st.end_date, st.is_current)
    else (st.start_date, st.end_date, st.is_current)
  let location :=
    if st.location = [] then
      match extract_location_from_line line with
      | some loc => loc
      | none => []
    else st.location
  let (description, achievements, technologies) :=
    if ¬ is_date_line line ∧ ¬ is_location_line line ∧ line ≠ first_line then
      if isBulletLine line then
        (st.description ++ [line], st.achievements, st.technologies)
      else if is_achievement_line line then
        (st.description, st.achievements ++ [line], st.technologies)
      else if 20 < line.length then
        if contains_technical_terms line then
          let techs := st.technologies ++ extract_technologies_from_line line
          if ¬ is_purely_technical_line line then
            (st.description ++ [line], st.achievements, techs)
          else (st.description, st.achievements, techs)
        else (st.description ++ [line], st.achievements, st.technologies)
      else (st.description, st.achievements, st.technologies)
    else (st.description, st.achievements, st.technologies)
  { start_date := start_date, end_date := end_date, location := location,
    description := description, achievements := achievements,
    technologies := technologies, is_current := is_current }

/-- `_parse_experience_entry`.  The `duration` computed by the source
when both dates are present is passed to the pydantic `Experience`
constructor, which has no such field and discards it; the computation is
therefore not carried here. -/
def parse_experience_entry (entry : List Char) : Option Experience :=
  let lines := ((splitCh '\n' entry).map pyStrip).filter (· ≠ [])
  match lines with
  | [] => none
  | first_line :: restLines =>
    let (job_title, company, start_date, end_date, location) :=
      parse_first_experience_line first_line
    let st := restLines.foldl (expLoopStep first_line)
      { start_date := start_date, end_date := end_date, location := location,
        description := [], achievements := [], technologies := [],
        is_current := false }
    let (job_title, company) :=
      if job_title = [] ∨ company = [] then extract_job_title_and_company lines
      else (job_title, company)
    let all_dates := (lines.map extract_dates_from_line).flatten
    let start_date :=
      if st.start_date = [] ∧ all_dates ≠ [] then all_dates.getD 0 []
      else st.start_date
    let (end_date, is_current) :=
      if st.end_date = [] ∧ 1 < all_dates.length then
        let ed := all_dates.getD 1 []
        (ed, substr ("present".data) (pyLower ed) ||
             substr ("current".data) (pyLower ed))
      else (st.end_date, st.is_current)
    if job_title ≠ [] then
      let cleaned_description :=
        (st.description.map (fun d => pyStrip (reSub bulletMarkPat [] d))).filter
          (· ≠ [])
      let cleaned_achievements :=
        (st.achievements.map (fun a => pyStrip (reSub bulletMarkPat [] a))).filter
          (· ≠ [])
      -- `list(set(technologies))`: an unspecified iteration order; modelled
      -- as first-occurrence dedup (no consumer depends on the order)
      let technologies := st.technologies.dedup
      some { position := String.mk job_title
             company := String.mk company
             start_date := some (String.mk start_date)
             end_date := some (String.mk end_date)
             location := some (String.mk st.location)
             description := cleaned_description.map String.mk
             achievements := cleaned_achievements.map String.mk
             technologies := technologies.map String.mk
             is_current := is_current }
    else none

/-- The scanning loop of `_extract_experience_from_full_text` (entry text
limited to 10 lines). -/
def expFullTextGo : List (List Char) → List Experience
  | [] => []
  | l :: rest =>
    let line := pyStrip l
    if line = [] then expFullTextGo rest
    else if is_job_title_line line then
      let entry_lines := collectEntryLines
        (fun nl => is_job_title_line nl || is_section_header nl) 10 [line] rest
      let entry_text := pyJoin ("\n".data) entry_lines
      match parse_experience_entry entry_text with
      | some exp => exp :: expFullTextGo rest
      | none => expFullTextGo rest
    else expFullTextGo rest

/-- `_extract_experience_from_full_text`. -/
def extract_experience_from_full_text (raw_text : List Char) : List Experience :=
  expFullTextGo (splitCh '\n' raw_text)

/-! #### Date sorting (with the `dateutil` and `datetime.now` oracles) -/

/-- Proleptic Gregorian day number of a civil date (days since
0000-03-01); only differences of such day numbers are used, so the epoch
choice is immaterial. -/
def daysFromCivil (y m d : Int) : Int :=
  let y2 := if m ≤ 2 then y - 1 else y
  let era := y2 / 400
  let yoe := y2 - era * 400
  let mp := (m + 9) % 12
  let doy := (153 * mp + 2) / 5 + d - 1
  let doe := yoe * 365 + yoe / 4 - yoe / 100 + doy
  era * 146097 + doe

/-- `datetime.min` = 0001-01-01. -/
def dtMin : Int := daysFromCivil 1 1 1

def isLeapYear (y : Nat) : Bool :=
  y % 4 = 0 ∧ (y % 100 ≠ 0 ∨ y % 400 = 0)

def daysInMonth (y m : Nat) : Nat :=
  if m = 2 then (if isLeapYear y then 29 else 28)
  else if m = 4 ∨ m = 6 ∨ m = 9 ∨ m = 11 then 30
  else 31

/-- The month table of the live `_parse_date_for_sorting`, in dictionary
order. -/
def monthNameTable : List (String × Nat) :=
  [("jan", 1), ("feb", 2), ("mar", 3), ("apr", 4), ("may", 5), ("jun", 6),
   ("jul", 7), ("aug", 8), ("sep", 9), ("oct", 10), ("nov", 11), ("dec", 12)]

/-- `rf'{month_abbr}[a-z]*\s+(\d{{1,2}})?,?\s+(\d{{4}})'` with
`IGNORECASE`. -/
def monthDatePat (abbr : String) : RE :=
  rcat [rstrCI abbr, rstar true (rlowercls true), rplus true rws,
        ropt true (.grp 1 (rrep rdigit 1 2)), ropt true (rchr ','),
        rplus true rws, .grp 2 (rrep rdigit 4 4)]

/-- The live `_parse_date_for_sorting`.  `dparse` is the
`dateutil.parser.parse` oracle (`none`: it raised); `now` is
`datetime.now()`.  A month-name hit with an invalid day raises inside
`datetime(...)` and the surrounding `except` returns `datetime.min`. -/
def parse_date_for_sorting (dparse : List Char → Option Int) (now : Int)
    (date_str : Option (List Char)) : Int :=
  match date_str with
  | none => dtMin
  | some ds =>
    if ds = [] then dtMin
    else if substr ("present".data) (pyLower ds) ∨
        substr ("current".data) (pyLower ds) then now
    else
      match monthNameTable.findSome? (fun mn =>
          if substr mn.1.data (pyLower ds) then
            match reFindAll2 (monthDatePat mn.1) ds with
            | (day, year) :: _ =>
              let y := digitsToNat year
              let d := if day = [] then 1 else digitsToNat day
              if 1 ≤ d ∧ d ≤ daysInMonth y mn.2 then
                some (daysFromCivil (y : Int) (mn.2 : Int) (d : Int))
              else some dtMin
            | [] => none
          else none) with
      | some v => v
      | none => (dparse ds).getD dtMin

/-- `_extract_experience`: section-based extraction with full-text
fallback, sorted by parsed start date, newest first (Python's stable
`sort(..., reverse=True)`). -/
def extract_experience (dparse : List Char → Option Int) (now : Int)
    (raw_text : List Char) : List Experience :=
  let exp_section_keywords : List String :=
    ["experience", "work experience", "professional experience", "employment",
     "career", "work history", "positions", "roles", "job history"]
  let experience :=
    match extract_section exp_section_keywords raw_text with
    | some exp_section =>
      (split_experience_entries exp_section).filterMap parse_experience_entry
    | none => extract_experience_from_full_text raw_text
  let keyOf := fun (e : Experience) =>
    parse_date_for_sorting dparse now (e.start_date.map (·.data))
  insSort (fun a b => decide (keyOf b ≤ keyOf a)) experience

/-- The live `_extract_education`. -/
def extract_education (dparse : List Char → Option Int) (now : Int)
    (raw_text : List Char) : List Education :=
  let edu_section_keywords : List String :=
    ["education", "academic background", "qualifications", "degrees",
     "academic", "university", "college", "school"]
  let education :=
    match extract_section edu_section_keywords raw_text with
    | some edu_section =>
      (split_education_entries edu_section).filterMap parse_education_entry
    | none => extract_education_from_full_text raw_text
  let keyOf := fun (e : Education) =>
    parse_date_for_sorting dparse now (some (e.graduation_date.getD "").data)
  insSort (fun a b => decide (keyOf b ≤ keyOf a)) education

/-! #### Personal information extraction -/

/-- `r'\b[A-Za-z0-9._%+-]+@[A-Za-z0-9.-]+\.[A-Z|a-z]{2,}\b'` (note the
literal `|` inside the last character class of the source). -/
def emailPat : RE :=
  rcat [rwb,
        rplus true (.cls (fun c => isAlphaCh c ∨ isDigitCh c ∨ c = '.' ∨ c = '_' ∨
          c = '%' ∨ c = '+' ∨ c = '-')),
        rchr '@',
        rplus true (.cls (fun c => isAlphaCh c ∨ isDigitCh c ∨ c = '.' ∨ c = '-')),
        rchr '.',
        rrepFrom (.cls (fun c => isAlphaCh c ∨ c = '|')) 2, rwb]

/-- The `[-.\s]` class of the phone patterns. -/
def dashDotWs : RE := .cls (fun c => c = '-' ∨ c = '.' ∨ isSpaceCh c)

/-- `r'(?:\+?1[-.\s]?)?\(?[0-9]{3}\)?[-.\s]?[0-9]{3}[-.\s]?[0-9]{4}'`. -/
def phonePatUS : RE :=
  rcat [ropt true (rcat [ropt true (rchr '+'), rchr '1', ropt true dashDotWs]),
        ropt true (rchr '('), rrep rdigit 3 3, ropt true (rchr ')'),
        ropt true dashDotWs, rrep rdigit 3 3, ropt true dashDotWs, rrep rdigit 4 4]

/-- `r'(?:\+?[1-9]\d{0,3}[-.\s]?)?\(?\d{1,4}\)?[-.\s]?\d{1,4}[-.\s]?\d{1,9}'`. -/
def phonePatIntl : RE :=
  rcat [ropt true (rcat [ropt true (rchr '+'), .cls (fun c => '1' ≤ c ∧ c ≤ '9'),
          rrep rdigit 0 3, ropt true dashDotWs]),
        ropt true (rchr '('), rrep rdigit 1 4, ropt true (rchr ')'),
        ropt true dashDotWs, rrep rdigit 1 4, ropt true dashDotWs, rrep rdigit 1 9]

/-- `r'@\w|[\d\(\)\-\s]{10,}|linkedin|github'`, the contact-line test
(applied to lowercased text). -/
def contactLikePat : RE :=
  ralt [rcat [rchr '@', rwordc],
        rrepFrom (.cls (fun c => isDigitCh c ∨ c = '(' ∨ c = ')' ∨ c = '-' ∨
          isSpaceCh c)) 10,
        rstr "linkedin", rstr "github"]

/-- `r'\b([A-Za-z]+)\.[A-Za-z]+@'`, the name-from-email fallback. -/
def nameEmailPat : RE :=
  rcat [rwb, .grp 1 (rplus true ralphacls), rchr '.', rplus true ralphacls, rchr '@']

/-- `_extract_name` (the spaCy `doc` parameter of the source is never
used by the live code path). -/
def extract_name (raw_text : List Char) : Option (List Char) :=
  let lines := ((splitCh '\n' raw_text).map pyStrip).filter (· ≠ [])
  match (lines.take 3).findSome? (fun line =>
      if reTest contactLikePat (pyLower line) ∨ 4 < (splitWs line).length ∨
          line.length < 2 then
        none
      else
        let words := splitWs line
        if 2 ≤ words.length ∧ words.length ≤ 4 ∧
            ((words.filter (fun w => 1 < w.length)).all (fun w =>
              match w with
              | c :: _ => isUpperCh c
              | [] => true)) ∧
            ¬ line.any isDigitCh then
          some line
        else none) with
  | some name => some name
  | none =>
    match reSearch nameEmailPat raw_text with
    | some (_, _, caps) => some (pyCapitalize (capGetD raw_text caps 1))
    | none => none

/-- The two LinkedIn URL patterns (`IGNORECASE`). -/
def linkedinPats : List RE :=
  [rcat [ropt true (rcat [rstrCI "http", ropt true (rchrCI 's'), rstr "://"]),
         ropt true (rstrCI "www."), rstrCI "linkedin.com/in/",
         rplus true (.cls (fun c => isWordCh c ∨ c = '-'))],
   rcat [ropt true (rcat [rstrCI "http", ropt true (rchrCI 's'), rstr "://"]),
         ropt true (rstrCI "www."), rstrCI "linkedin.com/pub/",
         rplus true (.cls (fun c => isWordCh c ∨ c = '-' ∨ c = '/'))]]

/-- `_extract_linkedin`. -/
def extract_linkedin (raw_text : List Char) : Option (List Char) :=
  linkedinPats.findSome? (fun pat =>
    match reFindAll pat raw_text with
    | url :: _ =>
      some (if startsWith ("http".data) url then url else "https://www.".data ++ url)
    | [] => none)

/-- `_extract_github`: `r'(?:https?://)?(?:www\.)?github\.com/[\w\-]+'`. -/
def githubPat : RE :=
  rcat [ropt true (rcat [rstrCI "http", ropt true (rchrCI 's'), rstr "://"]),
        ropt true (rstrCI "www."), rstrCI "github.com/",
        rplus true (.cls (fun c => isWordCh c ∨ c = '-'))]

def extract_github (raw_text : List Char) : Option (List Char) :=
  match reFindAll githubPat raw_text with
  | url :: _ =>
    some (if startsWith ("http".data) url then url else "https://www.".data ++ url)
  | [] => none

/-- The two portfolio URL patterns (`.com` and `.io`). -/
def portfolioPats : List RE :=
  [rcat [ropt true (rcat [rstrCI "http", ropt true (rchrCI 's'), rstr "://"]),
         ropt true (rstrCI "www."),
         rplus true (.cls (fun c => isAlphaCh c ∨ isDigitCh c ∨ c = '-')),
         rstrCI ".com"],
   rcat [ropt true (rcat [rstrCI "http", ropt true (rchrCI 's'), rstr "://"]),
         ropt true (rstrCI "www."),
         rplus true (.cls (fun c => isAlphaCh c ∨ isDigitCh c ∨ c = '-')),
         rstrCI ".io"]]

def portfolioExcludedDomains : List String :=
  ["gmail.com", "yahoo.com", "hotmail.com", "linkedin.com", "github.com"]

/-- `_extract_portfolio`. -/
def extract_portfolio (raw_text : List Char) : Option (List Char) :=
  portfolioPats.findSome? (fun pat =>
    (reFindAll pat raw_text).findSome? (fun m =>
      if ¬ portfolioExcludedDomains.any (fun d => substr d.data (pyLower m)) then
        some (if startsWith ("http".data) m then m else "https://".data ++ m)
      else none))

/-- `r'^[A-Z][a-z]+(?:\s+[A-Z][a-z]+)*$'` (case-sensitive), the
standalone-location shape. -/
def locShapePat : RE :=
  rcat [csWord, rstar true (rcat [rplus true rws, csWord]), reol]

/-- `_extract_location`: an indicator-labelled line among the first ten,
else a short standalone line that has a comma or a title-case shape. -/
def extract_location (raw_text : List Char) : Option (List Char) :=
  let lines := (splitCh '\n' raw_text).take 10
  let location_indicators : List String := ["location", "based in", "city", "state"]
  match lines.findSome? (fun line =>
      let line_lower := pyLower line
      if location_indicators.any (fun ind => substr ind.data line_lower) then
        location_indicators.findSome? (fun indicator =>
          if substr indicator.data line_lower then
            -- `line.split(indicator, 1)` splits the original-case line
            match pySplitSubOnce indicator.data line with
            | some (_, after) =>
              let location := pyStripChars (":, ".data) after
              if location ≠ [] ∧ 1 < location.length then some location else none
            | none => none
          else none)
      else none) with
  | some loc => some loc
  | none =>
    lines.findSome? (fun l =>
      let line := pyStrip l
      if line.length < 20 ∧ 2 < line.length ∧
          ¬ reTest contactLikePat (pyLower line) ∧
          ¬ common_job_titles.any (fun t => substr t.data (pyLower line)) then
        if substr (",".data) line ∨ (reMatchAt0 locShapePat line).isSome then
          some line
        else none
      else none)

/-- `_extract_personal_info`. -/
def extract_personal_info (raw_text : List Char) : PersonalInfo :=
  let email :=
    match reFindAll emailPat raw_text with
    | e :: _ => some (String.mk e)
    | [] => none
  let phone :=
    match ([phonePatUS, phonePatIntl] : List RE).findSome? (fun pat =>
        match reFindAll pat raw_text with
        | p :: _ => some p
        | [] => none) with
    | some p => some (String.mk p)
    | none => none
  { name := (extract_name raw_text).map String.mk
    email := email
    phone := phone
    linkedin := (extract_linkedin raw_text).map String.mk
    github := (extract_github raw_text).map String.mk
    portfolio := (extract_portfolio raw_text).map String.mk
    location := (extract_location raw_text).map String.mk }

/-! #### `parse_resume` -/

/-- The result of `text_extractor.get_file_info`. -/
structure FileInfo where
  file_size : Nat
  file_extension : String
  page_count : Option Nat := none

/-- Pydantic coercion of `file_extension.lstrip('.')` into the `FileType`
enum; an unknown extension raises a validation error. -/
def fileTypeOfExt (ext : List Char) : Option FileType :=
  if ext = "pdf".data then some .pdf
  else if ext = "docx".data then some .docx
  else if ext = "doc".data then some .doc
  else none

/-- `parse_resume`.  External collaborators appear as arguments: the text
extractor result (`extracted`), the spaCy pipeline (`nlp`, giving the
noun-chunk texts of a document), the `dateutil` parser and clock used by
the date sorters, and the file-info lookup.  Any collaborator failure is
logged and re-raised by the source (`except ... raise`), so it propagates
as `Except.error`; on success the resume is returned with status
`completed`. -/
def parse_resume (extracted : Except String String)
    (nlp : Option (String → List String))
    (dparse : List Char → Option Int) (now : Int)
    (file_info : Except String FileInfo)
    (original_filename file_id : String) : Except String ParsedResume :=
  match extracted with
  | .error e => .error e
  | .ok raw_text =>
    let doc := nlp.map (fun f => f raw_text)
    let personal_info := extract_personal_info raw_text.data
    let experience := extract_experience dparse now raw_text.data
    let education := extract_education dparse now raw_text.data
    let skills_data := extract_skills raw_text.data doc
    let parsed_data : ParsedData :=
      { personal_info := personal_info, experience := experience,
        education := education, skills := skills_data }
    match file_info with
    | .error e => .error e
    | .ok fi =>
      match fileTypeOfExt (fi.file_extension.data.dropWhile (· = '.')) with
      | none => .error "validation error for ResumeFileMetadata: file_type"
      | some ft =>
        .ok { id := file_id
              filename := original_filename
              raw_text := raw_text
              parsed_data := parsed_data
              metadata :=
                { file_size := fi.file_size
                  file_type := ft
                  pages := if fi.file_extension = ".pdf" then fi.page_count
                           else none }
              status := .completed
              error_message := none }

/-! ### Concrete fixtures used by the witness and counterexample theorems -/

def fixtureMetadata : ResumeFileMetadata := { file_size := 1, file_type := .pdf }

/-- A resume with no extracted entities. -/
def emptyResume : ParsedResume :=
  { id := "r1", filename := "r.pdf", raw_text := "", metadata := fixtureMetadata }

/-- One relevant experience entry spanning one year (2020 to 2021). -/
def oneYearResume : ParsedResume :=
  { id := "r2", filename := "r.pdf", raw_text := ""
    metadata := fixtureMetadata
    parsed_data :=
      { experience :=
          [{ company := "Acme", position := "Engineer",
             start_date := some "2020", end_date := some "2021" }] } }

/-- A senior-level job (5 required years). -/
def seniorJob : JobDescription :=
  { title := "Engineer", description := "Engineering role"
    required_skills := ["python"], experience_level := some .senior }

/-- A job whose weights pass validation but sum to `1.005`. -/
def overWeightJob : JobDescription :=
  { title := "T", description := "D"
    weight_skills := 3/5, weight_experience := 81/200
    weight_education := 0, weight_keywords := 0 }

/-- A job that leaves every component below its recommendation
threshold for `emptyResume`. -/
def reqJob : JobDescription :=
  { title := "Engineer", description := "Engineering role"
    required_skills := ["python"], experience_level := some .senior
    education_requirements := some ["bachelor"] }

/-- Six consecutive job-title-like lines. -/
def sixTitleLines : String :=
  "Software Engineer at Acme\nSoftware Engineer at Acme\nSoftware Engineer at Acme\nSoftware Engineer at Acme\nSoftware Engineer at Acme\nSoftware Engineer at Acme"

/-- A document whose only taxonomy hits are substrings of longer words
(the term `r` inside `Iron` and `rod`). -/
def ironRodText : String := "Iron rod"

/-- Modelled from the spec: `coverage = (exactMatches + 0.5×partialMatches)
/ total` over the lower-cased stripped skill sets. -/
def specRequiredCoverage (resume : ParsedResume) (job : JobDescription) : Rat :=
  let rs := pySet ((allResumeSkills resume.parsed_data).map normSkill)
  let req := pySet (job.required_skills.map normSkill)
  (((setInter rs req).length : Rat) +
      ((find_partial_skill_matches rs req).length : Rat) * (1/2)) /
    (req.length : Rat)

/-- Modelled from the spec: preferred-skill coverage. -/
def specPreferredCoverage (resume : ParsedResume) (job : JobDescription) : Rat :=
  let rs := pySet ((allResumeSkills resume.parsed_data).map normSkill)
  let pref := pySet ((job.preferred_skills.getD []).map normSkill)
  (((setInter rs pref).length : Rat) +
      ((find_partial_skill_matches rs pref).length : Rat) * (1/2)) /
    (pref.length : Rat)

/-- Modelled from the spec: the claimed skills score, by the four cases of
C5, capped at 100. -/
def specSkillsScore (resume : ParsedResume) (job : JobDescription) : Rat :=
  let req := pySet (job.required_skills.map normSkill)
  let pref := pySet ((job.preferred_skills.getD []).map normSkill)
  min
    (if req ≠ [] ∧ pref ≠ [] then
      (specRequiredCoverage resume job * (7/10) +
        specPreferredCoverage resume job * (3/10)) * 100
    else if req ≠ [] then specRequiredCoverage resume job * 100
    else if pref ≠ [] then specPreferredCoverage resume job * 100
    else 100) 100

/-- The first taxonomy category's term list (the `programming` bucket). -/
def programmingSkills : List String := (skills_database.getD 0 ("", [])).2

/-! ### Helper lemmas -/

theorem mem_insertAsc {le : α → α → Bool} {a x : α} {l : List α} :
    a ∈ insertAsc le x l ↔ a = x ∨ a ∈ l := by
  induction l with
  | nil => simp [insertAsc]
  | cons b bs ih =>
    simp only [insertAsc]
    split
    · simp
    · simp only [List.mem_cons, ih]
      tauto

theorem mem_insSort {le : α → α → Bool} {a : α} {l : List α} :
    a ∈ insSort le l ↔ a ∈ l := by
  induction l with
  | nil => simp [insSort]
  | cons b bs ih => simp [insSort, mem_insertAsc, ih]

theorem half_length_le_sum {l : List Rat} (h : ∀ x ∈ l, 1/2 ≤ x) :
    (l.length : Rat) / 2 ≤ l.sum := by
  induction l with
  | nil => simp
  | cons x xs ih =>
    have hx : 1/2 ≤ x := h x (List.mem_cons_self x xs)
    have hxs : (xs.length : Rat) / 2 ≤ xs.sum :=
      ih (fun y hy => h y (List.mem_cons_of_mem x hy))
    simp only [List.length_cons, List.sum_cons]
    push_cast
    linarith

theorem length_expFullTextGo (ls : List (List Char)) :
    (expFullTextGo ls).length ≤ ls.length := by
  induction ls with
  | nil => simp [expFullTextGo]
  | cons l rest ih =>
    simp only [expFullTextGo]
    split
    · exact Nat.le_succ_of_le ih
    · split
      · split
        · simpa using Nat.succ_le_succ ih
        · exact Nat.le_succ_of_le ih
      · exact Nat.le_succ_of_le ih

theorem length_eduFullTextGo (ls : List (List Char)) :
    (eduFullTextGo ls).length ≤ ls.length := by
  induction ls with
  | nil => simp [eduFullTextGo]
  | cons l rest ih =>
    simp only [eduFullTextGo]
    split
    · exact Nat.le_succ_of_le ih
    · split
      · split
        · simpa using Nat.succ_le_succ ih
        · exact Nat.le_succ_of_le ih
      · exact Nat.le_succ_of_le ih

/-! ### Claims -/

/-- Every computed entry duration is at least half a year. -/
theorem half_le_duration (nowYear : Int) (sd ed : Option String) (cur : Bool) :
    1/2 ≤ calculate_duration_from_dates nowYear sd ed cur := by
  unfold calculate_duration_from_dates
  rcases sd with _ | s
  · norm_num
  · simp only
    split
    · norm_num
    · cases hy : durationYearOf s.data with
      | none => norm_num
      | some sy =>
        simp only
        split
        · norm_num
        · exact le_max_right _ _

/-- Claim C10: every experience entry contributes at least half a year to
the scorer's totals; an entry whose start date is missing or unparsable
contributes exactly one year; and the total experience of
`_calculate_experience_match` is bounded below by half the number of
entries (likewise the relevant total by half the number of relevant
entries). -/
theorem C10_duration_bounds :
    (∀ (nowYear : Int) (sd ed : Option String) (cur : Bool),
      1/2 ≤ calculate_duration_from_dates nowYear sd ed cur) ∧
    (∀ (nowYear : Int) (ed : Option String) (cur : Bool),
      calculate_duration_from_dates nowYear none ed cur = 1) ∧
    (∀ (nowYear : Int) (s : String) (ed : Option String) (cur : Bool),
      durationYearOf s.data = none →
      calculate_duration_from_dates nowYear (some s) ed cur = 1) ∧
    (∀ (nowYear : Int) (resume : ParsedResume) (job : JobDescription),
      (resume.parsed_data.experience.length : Rat) / 2 ≤
        (calculate_experience_match nowYear resume job).details.total_experience ∧
      ((resume.parsed_data.experience.filter
          (fun e => is_relevant_experience e job)).length : Rat) / 2 ≤
        (calculate_experience_match nowYear resume job).details.relevant_experience) := by
  have hdur := half_le_duration
  refine ⟨hdur, ?_, ?_, ?_⟩
  · intro nowYear ed cur
    unfold calculate_duration_from_dates
    rfl
  · intro nowYear s ed cur h
    unfold calculate_duration_from_dates
    simp only [h]
    split <;> rfl
  · intro nowYear resume job
    constructor
    · unfold calculate_experience_match
      simp only
      have := half_length_le_sum (l := resume.parsed_data.experience.map (fun e =>
        calculate_duration_from_dates nowYear e.start_date e.end_date e.is_current))
        (by
          intro x hx
          rcases List.mem_map.mp hx with ⟨e, _, rfl⟩
          exact hdur nowYear e.start_date e.end_date e.is_current)
      simpa using this
    · unfold calculate_experience_match
      simp only
      have hsame : resume.parsed_data.experience.filterMap (fun e =>
          if is_relevant_experience e job then
            some (calculate_duration_from_dates nowYear e.start_date e.end_date
              e.is_current)
          else none) =
          (resume.parsed_data.experience.filter
            (fun e => is_relevant_experience e job)).map (fun e =>
              calculate_duration_from_dates nowYear e.start_date e.end_date
                e.is_current) := by
        induction resume.parsed_data.experience with
        | nil => simp
        | cons e es ih =>
          by_cases he : is_relevant_experience e job
          · simp [List.filterMap_cons, List.filter_cons, he, ih]
          · simp [List.filterMap_cons, List.filter_cons, he, ih]
      rw [hsame]
      have := half_length_le_sum
        (l := (resume.parsed_data.experience.filter
          (fun e => is_relevant_experience e job)).map (fun e =>
            calculate_duration_from_dates nowYear e.start_date e.end_date
              e.is_current))
        (by
          intro x hx
          rcases List.mem_map.mp hx with ⟨e, _, rfl⟩
          exact hdur nowYear e.start_date e.end_date e.is_current)
      simpa using this

/-- Witness for C10 at concrete inputs: an unparsable start date `"soon"`
gives exactly one year, and the bound holds at a concrete entry. -/
theorem C10_duration_bounds_witness :
    calculate_duration_from_dates 2026 (some "soon") (some "2021") false = 1 ∧
    1/2 ≤ calculate_duration_from_dates 2026 (some "2020") (some "2021") false := by
  constructor
  · exact C10_duration_bounds.2.2.1 2026 "soon" (some "2021") false (by decide)
  · exact C10_duration_bounds.1 2026 (some "2020") (some "2021") false

/-- Claim C4: with the TF-IDF vectorization failing (oracle `none`), the
keyword component falls back to a score of exactly 50 with no keyword
matches, and the scoring call still returns a full result. -/
theorem C4_keywords_fallback (resume : ParsedResume) (job : JobDescription)
    (nowYear : Int) :
    (calculate_ats_score none nowYear resume job).keywords_score = 50 ∧
    (calculate_ats_score none nowYear resume job).keyword_matches = [] ∧
    calculate_keywords_match none resume job =
      { score := 50, matchesKw := [], details := { error := true } } := by
  refine ⟨?_, ?_, rfl⟩ <;>
    simp [calculate_ats_score, calculate_keywords_match]

/-- The one-year 2020–2021 entry has duration exactly one year. -/
theorem duration_2020_2021 :
    calculate_duration_from_dates 2026 (some "2020") (some "2021") false = 1 := by
  have h1 : durationYearOf ("2020".data) = some 2020 := by decide
  have h2 : durationYearOf ("2021".data) = some 2021 := by decide
  have h3 : ("2020" : String).data ≠ [] := by decide
  simp only [calculate_duration_from_dates, h1, h2, if_neg h3]
  norm_num

/-- Claim C1 (failing input of the code bug): a senior job (5 required
years) against one relevant one-year entry yields an experience score of
100, not approximately 16: the source computes
`(min(1/5,1)·80 + min(1/5,0.5)·20) · 100 = 2000` before clamping,
because of the extra `* 100` on an already percent-scaled value. -/
theorem C1_experience_score_saturates :
    (calculate_experience_match 2026 oneYearResume seniorJob).score = 100 ∧
    (calculate_experience_match 2026 oneYearResume seniorJob).details.relevant_experience = 1 ∧
    (calculate_experience_match 2026 oneYearResume seniorJob).details.required_years = 5 := by
  have hrel : is_relevant_experience
      { company := "Acme", position := "Engineer",
        start_date := some "2020", end_date := some "2021" } seniorJob = true := by
    decide
  have hlvl : seniorJob.experience_level = some .senior := rfl
  refine ⟨?_, ?_, ?_⟩ <;>
  · simp only [calculate_experience_match, oneYearResume, hlvl, hrel,
      List.map_cons, List.map_nil, List.filterMap_cons, List.filterMap_nil,
      if_true, duration_2020_2021, experience_level_years,
      List.sum_cons, List.sum_nil, List.length_cons, List.length_nil]
    try norm_num [min_def]

/-- Claim C2 (counterexample): a job whose weights pass the model
validation (each in [0,1], sum `1.005`, within the `±0.01` tolerance)
yields an overall score of `100.5`, outside `[0, 100]`. -/
theorem C2_overall_score_exceeds_100 :
    overWeightJob.validWeights ∧
    (calculate_ats_score none 2026 emptyResume overWeightJob).overall_score =
      201/2 := by
  constructor
  · unfold JobDescription.validWeights overWeightJob
    norm_num [abs_le]
  · have hreq : overWeightJob.required_skills = [] := rfl
    have hpref : overWeightJob.preferred_skills = some [] := rfl
    have hlvl : overWeightJob.experience_level = none := rfl
    have hedu : overWeightJob.education_requirements = some [] := rfl
    have hsk : (calculate_skills_match emptyResume overWeightJob).score = 100 := by
      simp [calculate_skills_match, emptyResume, hreq, hpref, allResumeSkills,
        pySet, setInter, find_partial_skill_matches]
    have hex : (calculate_experience_match 2026 emptyResume overWeightJob).score
        = 100 := by
      simp [calculate_experience_match, emptyResume, hlvl]
    have hed : (calculate_education_match emptyResume overWeightJob).score = 100 := by
      simp [calculate_education_match, emptyResume, hedu]
    have hkw : (calculate_keywords_match none emptyResume overWeightJob).score
        = 50 := by
      simp [calculate_keywords_match]
    have hw1 : overWeightJob.weight_skills = 3/5 := rfl
    have hw2 : overWeightJob.weight_experience = 81/200 := rfl
    have hw3 : overWeightJob.weight_education = 0 := rfl
    have hw4 : overWeightJob.weight_keywords = 0 := rfl
    simp only [calculate_ats_score, hsk, hex, hed, hkw, hw1, hw2, hw3, hw4]
    norm_num

/-- The skills component score lies in `[0, 100]`. -/
theorem skills_score_bounds (resume : ParsedResume) (job : JobDescription) :
    0 ≤ (calculate_skills_match resume job).score ∧
    (calculate_skills_match resume job).score ≤ 100 := by
  unfold calculate_skills_match
  simp only
  constructor
  · apply le_min _ (by norm_num)
    split
    · norm_num
    · have hnn : ∀ (a b : Nat) (t : Nat),
          (0:Rat) ≤ ((a : Rat) + (b : Rat) * (1/2)) / ((max t 1 : Nat) : Rat) := by
        intro a b t
        apply div_nonneg
        · positivity
        · positivity
      split
      · have h1 := hnn (setInter (pySet ((allResumeSkills resume.parsed_data).map normSkill)) (pySet (job.required_skills.map normSkill))).length (find_partial_skill_matches (pySet ((allResumeSkills resume.parsed_data).map normSkill)) (pySet (job.required_skills.map normSkill))).length (pySet (job.required_skills.map normSkill)).length
        have h2 := hnn (setInter (pySet ((allResumeSkills resume.parsed_data).map normSkill)) (pySet ((job.preferred_skills.getD []).map normSkill))).length (find_partial_skill_matches (pySet ((allResumeSkills resume.parsed_data).map normSkill)) (pySet ((job.preferred_skills.getD []).map normSkill))).length (pySet ((job.preferred_skills.getD []).map normSkill)).length
        positivity
      · split
        · positivity
        · positivity
  · exact min_le_right _ _

/-- Auxiliary arithmetic bound for the experience score shape. -/
theorem expScoreShapeNonneg (rel tot ry : Rat) (h1 : 0 ≤ rel) (h2 : 0 ≤ tot)
    (h3 : 0 ≤ ry) :
    0 ≤ (min (rel / ry) 1 * 80 + min (tot / ry) (1/2) * 20) * 100 := by
  have ha : 0 ≤ min (rel / ry) 1 * 80 :=
    mul_nonneg (le_min (div_nonneg h1 h3) (by norm_num)) (by norm_num)
  have hb : 0 ≤ min (tot / ry) (1/2) * 20 :=
    mul_nonneg (le_min (div_nonneg h2 h3) (by norm_num)) (by norm_num)
  nlinarith

/-- The experience component score lies in `[0, 100]`. -/
theorem experience_score_bounds (nowYear : Int) (resume : ParsedResume)
    (job : JobDescription) :
    0 ≤ (calculate_experience_match nowYear resume job).score ∧
    (calculate_experience_match nowYear resume job).score ≤ 100 := by
  unfold calculate_experience_match
  simp only
  constructor
  · apply le_min _ (by norm_num)
    split
    · norm_num
    · have htot : (0:Rat) ≤ (resume.parsed_data.experience.map (fun e =>
          calculate_duration_from_dates nowYear e.start_date e.end_date
            e.is_current)).sum := by
        apply List.sum_nonneg
        intro x hx
        rcases List.mem_map.mp hx with ⟨e, _, rfl⟩
        linarith [half_le_duration nowYear e.start_date e.end_date e.is_current]
      have hrel : (0:Rat) ≤ (resume.parsed_data.experience.filterMap (fun e =>
          if is_relevant_experience e job then
            some (calculate_duration_from_dates nowYear e.start_date e.end_date
              e.is_current)
          else none)).sum := by
        apply List.sum_nonneg
        intro x hx
        rcases List.mem_filterMap.mp hx with ⟨e, _, he⟩
        by_cases h : is_relevant_experience e job = true
        · rw [if_pos h] at he
          have hxe := Option.some.inj he
          subst hxe
          linarith [half_le_duration nowYear e.start_date e.end_date e.is_current]
        · rw [if_neg h] at he
          cases he
      exact expScoreShapeNonneg _ _ _ hrel htot (by positivity)
  · exact min_le_right _ _

/-- The education component score lies in `[0, 100]`. -/
theorem education_score_bounds (resume : ParsedResume) (job : JobDescription) :
    0 ≤ (calculate_education_match resume job).score ∧
    (calculate_education_match resume job).score ≤ 100 := by
  simp only [calculate_education_match]
  split
  · norm_num
  · simp only
    constructor
    · apply le_min _ (by norm_num)
      split
      · norm_num
      · split
        · norm_num
        · split
          · positivity
          · norm_num
    · exact min_le_right _ _

/-- The keyword component score lies in `[0, 100]` whenever the
similarity oracle reports a value in `[0, 1]` (as a cosine similarity of
nonnegative TF-IDF vectors does), and also in the fallback case. -/
theorem keywords_score_bounds (sim : Option Rat) (resume : ParsedResume)
    (job : JobDescription) (hsim : ∀ s, sim = some s → 0 ≤ s ∧ s ≤ 1) :
    0 ≤ (calculate_keywords_match sim resume job).score ∧
    (calculate_keywords_match sim resume job).score ≤ 100 := by
  cases sim with
  | none => constructor <;> norm_num [calculate_keywords_match]
  | some s =>
    have hs := hsim s rfl
    unfold calculate_keywords_match
    simp only
    constructor
    · apply le_min _ (by norm_num)
      nlinarith [hs.1]
    · exact min_le_right _ _

/-- Claim C2 (amended): for every resume and every job accepted by the
weight validation, and any TF-IDF similarity in `[0,1]` (or the
fallback), the overall score lies in `[0, 100 × Σ weights]`, hence in
`[0, 101]` under the `±0.01` tolerance; it is not clamped to 100. -/
theorem C2_overall_score_in_0_101 (sim : Option Rat) (nowYear : Int)
    (resume : ParsedResume) (job : JobDescription)
    (hw : job.validWeights) (hsim : ∀ s, sim = some s → 0 ≤ s ∧ s ≤ 1) :
    0 ≤ (calculate_ats_score sim nowYear resume job).overall_score ∧
    (calculate_ats_score sim nowYear resume job).overall_score ≤ 101 := by
  obtain ⟨hs0, hs1, he0, he1, hd0, hd1, hk0, hk1, htol⟩ := hw
  have hsk := skills_score_bounds resume job
  have hex := experience_score_bounds nowYear resume job
  have hed := education_score_bounds resume job
  have hkw := keywords_score_bounds sim resume job hsim
  have hsum : job.weight_skills + job.weight_experience + job.weight_education +
      job.weight_keywords ≤ 101/100 := by
    have := abs_le.mp htol
    linarith [this.2]
  unfold calculate_ats_score
  simp only
  constructor
  · have t1 : 0 ≤ (calculate_skills_match resume job).score *
        (job.weight_skills * 100) / 100 :=
      div_nonneg (mul_nonneg hsk.1 (mul_nonneg hs0 (by norm_num))) (by norm_num)
    have t2 : 0 ≤ (calculate_experience_match nowYear resume job).score *
        (job.weight_experience * 100) / 100 :=
      div_nonneg (mul_nonneg hex.1 (mul_nonneg he0 (by norm_num))) (by norm_num)
    have t3 : 0 ≤ (calculate_education_match resume job).score *
        (job.weight_education * 100) / 100 :=
      div_nonneg (mul_nonneg hed.1 (mul_nonneg hd0 (by norm_num))) (by norm_num)
    have t4 : 0 ≤ (calculate_keywords_match sim resume job).score *
        (job.weight_keywords * 100) / 100 :=
      div_nonneg (mul_nonneg hkw.1 (mul_nonneg hk0 (by norm_num))) (by norm_num)
    linarith
  · have t1 : (calculate_skills_match resume job).score *
        (job.weight_skills * 100) / 100 ≤ 100 * job.weight_skills := by
      rw [mul_comm job.weight_skills 100, ← mul_assoc, mul_div_assoc]
      norm_num
      nlinarith [hsk.1, hsk.2]
    have t2 : (calculate_experience_match nowYear resume job).score *
        (job.weight_experience * 100) / 100 ≤ 100 * job.weight_experience := by
      rw [mul_comm job.weight_experience 100, ← mul_assoc, mul_div_assoc]
      norm_num
      nlinarith [hex.1, hex.2]
    have t3 : (calculate_education_match resume job).score *
        (job.weight_education * 100) / 100 ≤ 100 * job.weight_education := by
      rw [mul_comm job.weight_education 100, ← mul_assoc, mul_div_assoc]
      norm_num
      nlinarith [hed.1, hed.2]
    have t4 : (calculate_keywords_match sim resume job).score *
        (job.weight_keywords * 100) / 100 ≤ 100 * job.weight_keywords := by
      rw [mul_comm job.weight_keywords 100, ← mul_assoc, mul_div_assoc]
      norm_num
      nlinarith [hkw.1, hkw.2]
    linarith

/-- Witness for the amended C2 at a concrete valid job and resume. -/
theorem C2_overall_score_in_0_101_witness :
    0 ≤ (calculate_ats_score none 2026 emptyResume overWeightJob).overall_score ∧
    (calculate_ats_score none 2026 emptyResume overWeightJob).overall_score ≤ 101 :=
  C2_overall_score_in_0_101 none 2026 emptyResume overWeightJob
    (by unfold JobDescription.validWeights overWeightJob; norm_num [abs_le])
    (by intro s h; cases h)

/-- The source's skills score coincides with the spec's four-case
coverage formula. -/
theorem skills_score_eq_spec (resume : ParsedResume) (job : JobDescription) :
    (calculate_skills_match resume job).score = specSkillsScore resume job := by
  unfold calculate_skills_match specSkillsScore specRequiredCoverage
    specPreferredCoverage
  simp only
  by_cases hr : pySet (job.required_skills.map normSkill) = [] <;>
    by_cases hp : pySet ((job.preferred_skills.getD []).map normSkill) = []
  · -- neither specified
    simp [hr, hp]
  · -- preferred only
    have hlp : pySet ((job.preferred_skills.getD []).map normSkill) ≠ [] := hp
    have hlen : (pySet ((job.preferred_skills.getD []).map normSkill)).length ≠ 0 :=
      fun h => hlp (List.length_eq_zero.mp h)
    have hmax : max (pySet ((job.preferred_skills.getD []).map normSkill)).length 1
        = (pySet ((job.preferred_skills.getD []).map normSkill)).length := by
      omega
    have hpos : 0 < (pySet ((job.preferred_skills.getD []).map normSkill)).length :=
      Nat.pos_of_ne_zero hlen
    simp [hr, hp, hmax, hlen, hpos]
  · -- required only
    have hlen : (pySet (job.required_skills.map normSkill)).length ≠ 0 :=
      fun h => hr (List.length_eq_zero.mp h)
    have hmax : max (pySet (job.required_skills.map normSkill)).length 1
        = (pySet (job.required_skills.map normSkill)).length := by
      omega
    have hpos : 0 < (pySet (job.required_skills.map normSkill)).length :=
      Nat.pos_of_ne_zero hlen
    simp [hr, hp, hmax, hlen, hpos]
  · -- both specified
    have hlen1 : (pySet (job.required_skills.map normSkill)).length ≠ 0 :=
      fun h => hr (List.length_eq_zero.mp h)
    have hlen2 : (pySet ((job.preferred_skills.getD []).map normSkill)).length ≠ 0 :=
      fun h => hp (List.length_eq_zero.mp h)
    have hmax1 : max (pySet (job.required_skills.map normSkill)).length 1
        = (pySet (job.required_skills.map normSkill)).length := by
      omega
    have hmax2 : max (pySet ((job.preferred_skills.getD []).map normSkill)).length 1
        = (pySet ((job.preferred_skills.getD []).map normSkill)).length := by
      omega
    have hpos1 : 0 < (pySet (job.required_skills.map normSkill)).length :=
      Nat.pos_of_ne_zero hlen1
    have hpos2 : 0 < (pySet ((job.preferred_skills.getD []).map normSkill)).length :=
      Nat.pos_of_ne_zero hlen2
    simp [hr, hp, hmax1, hmax2, hlen1, hlen2, hpos1, hpos2]

/-- Claim C3 (failing input of the code bug): with a skills score of 0
(< 70) and a non-empty missing-skills list, the recommendation list
contains no skills suggestion — `_generate_recommendations` reads
`details.get('missing', [])` from a dictionary that has no such key —
while the other thresholds fire in their fixed order. -/
theorem C3_no_missing_skills_recommendation :
    (calculate_ats_score none 2026 emptyResume reqJob).skills_score = 0 ∧
    (calculate_ats_score none 2026 emptyResume reqJob).missing_skills =
      ["python".data] ∧
    (calculate_ats_score none 2026 emptyResume reqJob).recommendations =
      [("Highlight more relevant work experience or include additional " ++
          "details about your accomplishments").data,
       ("Consider adding or highlighting relevant education, certifications, " ++
          "or training").data] := by
  have hsk0 : (calculate_skills_match emptyResume reqJob).score = 0 := by
    rw [skills_score_eq_spec]
    have h2 : pySet (reqJob.required_skills.map normSkill) = ["python".data] := by
      decide
    have h3 : pySet ((reqJob.preferred_skills.getD []).map normSkill) = [] := by
      decide
    have hi : setInter (pySet ((allResumeSkills emptyResume.parsed_data).map normSkill))
        (pySet (reqJob.required_skills.map normSkill)) = [] := by decide
    have hpm : find_partial_skill_matches
        (pySet ((allResumeSkills emptyResume.parsed_data).map normSkill))
        (pySet (reqJob.required_skills.map normSkill)) = [] := by decide
    have hcov : specRequiredCoverage emptyResume reqJob = 0 := by
      simp [specRequiredCoverage, hi, hpm]
    simp [specSkillsScore, h2, h3, hcov]
  have hmiss : (calculate_skills_match emptyResume reqJob).missing =
      ["python".data] := by decide
  have hex0 : (calculate_experience_match 2026 emptyResume reqJob).score = 0 := by
    have hlvl : reqJob.experience_level = some .senior := rfl
    simp [calculate_experience_match, emptyResume, hlvl, experience_level_years]
    try norm_num [min_def]
  have hed20 : (calculate_education_match emptyResume reqJob).score = 20 := by
    have hedu : reqJob.education_requirements = some ["bachelor"] := rfl
    have hlv : educationLevelOf (pyLower ("bachelor" : String).data) = some 3 := by
      decide
    simp [calculate_education_match, emptyResume, hedu, hlv]
    try norm_num [min_def]
  have hkw50 : (calculate_keywords_match none emptyResume reqJob).score = 50 := by
    simp [calculate_keywords_match]
  refine ⟨?_, ?_, ?_⟩
  · simp only [calculate_ats_score]
    exact hsk0
  · simp only [calculate_ats_score]
    exact hmiss
  · simp only [calculate_ats_score, generate_recommendations,
      SkillsDetails.getMissing, hsk0, hex0, hed20, hkw50]
    norm_num

/-- Claim C5: the skills score follows the four-case 70/30 coverage
formula of the spec, capped at 100 (`specSkillsScore` transcribes the
spec's formula; `calculate_skills_match` is the source's computation). -/
theorem C5_skills_score_formula (resume : ParsedResume) (job : JobDescription) :
    (calculate_skills_match resume job).score = specSkillsScore resume job :=
  skills_score_eq_spec resume job

/-- Claim C6 (counterexample): six consecutive job-title-like lines make
the full-text fallback synthesize six experience entries — more than the
claimed cap of five. -/
theorem C6_six_fallback_entries :
    (extract_experience_from_full_text sixTitleLines.data).length = 6 := by
  decide

/-- Claim C6 (amended): the fallback extractors cap each entry's text (10
lines for experience, 8 for education) but not the number of entries;
the scan yields at most one entry per input line. -/
theorem C6_fallback_entries_per_line (raw : List Char) :
    (extract_experience_from_full_text raw).length ≤ (splitCh '\n' raw).length ∧
    (extract_education_from_full_text raw).length ≤ (splitCh '\n' raw).length :=
  ⟨length_expFullTextGo _, length_eduFullTextGo _⟩

/-- Claim C7 (counterexample): in the document `"Iron rod"` the taxonomy
term `r` occurs only inside longer words (no whole token equals `r`), yet
the fallback scan reports it as a language skill. -/
theorem C7_substring_term_reported :
    extract_skills ironRodText.data none =
      { technical := [], soft := [], tools := [], frameworks := [],
        languages := ["r"] } ∧
    (wordTokens (pyLower ironRodText.data)).all (fun w => w ≠ "r".data) = true := by
  constructor <;> decide

/-- Appending a programming-category term: the languages bucket grows. -/
theorem bucketAdd_prog_languages (sd : List Char) (acc : Buckets) :
    (skillsBucketAdd "programming" sd acc).2.2.2.2 = acc.2.2.2.2 ++ [sd] := by
  obtain ⟨t, s, tos, f, l⟩ := acc
  rfl

/-- Appending a term of any other category leaves languages unchanged. -/
theorem bucketAdd_other_languages (c : String) (hc : c ≠ "programming")
    (sd : List Char) (acc : Buckets) :
    (skillsBucketAdd c sd acc).2.2.2.2 = acc.2.2.2.2 := by
  obtain ⟨t, s, tos, f, l⟩ := acc
  unfold skillsBucketAdd
  dsimp only
  rw [if_neg hc]
  split
  · rfl
  · split
    · rfl
    · rfl

/-- The inner scan over the programming term list: the languages bucket
collects exactly the substring-matching terms, in order. -/
theorem langs_fold_prog (tl : List Char) (skills : List String) (acc : Buckets) :
    ((skills.foldl (fun (acc : Buckets) (skill : String) =>
      if substr skill.data tl then skillsBucketAdd "programming" skill.data acc
      else acc) acc)).2.2.2.2 =
    acc.2.2.2.2 ++ (skills.filter (fun s => substr s.data tl)).map (fun s => s.data) := by
  induction skills generalizing acc with
  | nil => simp
  | cons s ss ih =>
    by_cases hs : substr s.data tl
    · simp only [List.foldl_cons, List.filter_cons, hs, if_true, List.map_cons]
      rw [ih, bucketAdd_prog_languages]
      simp
    · simp only [List.foldl_cons, List.filter_cons, hs, if_false,
        Bool.false_eq_true]
      rw [ih]

/-- The inner scan over any non-programming category list leaves the
languages bucket unchanged. -/
theorem langs_fold_other (c : String) (hc : c ≠ "programming") (tl : List Char)
    (skills : List String) (acc : Buckets) :
    ((skills.foldl (fun (acc : Buckets) (skill : String) =>
      if substr skill.data tl then skillsBucketAdd c skill.data acc
      else acc) acc)).2.2.2.2 = acc.2.2.2.2 := by
  induction skills generalizing acc with
  | nil => simp
  | cons s ss ih =>
    by_cases hs : substr s.data tl
    · simp only [List.foldl_cons, hs, if_true]
      rw [ih, bucketAdd_other_languages c hc]
    · simp only [List.foldl_cons, hs, if_false, Bool.false_eq_true]
      rw [ih]

/-- The outer scan over the whole taxonomy: the languages bucket collects
exactly the substring-matching terms of the programming categories, in
database order. -/
theorem db_fold_langs (db : List (String × List String)) (tl : List Char)
    (acc : Buckets) :
    (db.foldl (fun (acc : Buckets) (cat : String × List String) =>
      cat.2.foldl (fun (acc : Buckets) (skill : String) =>
        if substr skill.data tl then skillsBucketAdd cat.1 skill.data acc
        else acc) acc) acc).2.2.2.2 =
    acc.2.2.2.2 ++ (db.map (fun cat =>
      if cat.1 = "programming" then
        (cat.2.filter (fun s => substr s.data tl)).map (fun s => s.data)
      else [])).flatten := by
  induction db generalizing acc with
  | nil => simp
  | cons c cs ih =>
    simp only [List.foldl_cons, List.map_cons, List.flatten_cons]
    rw [ih]
    by_cases hc : c.1 = "programming"
    · rw [hc, if_pos (rfl : ("programming" : String) = "programming"),
        langs_fold_prog, List.append_assoc]
    · rw [if_neg hc, langs_fold_other c.1 hc, List.nil_append]

/-- Claim C7 (amended): when no skills section is found (and without the
spaCy pipeline), a programming-taxonomy term is reported as a language
skill exactly when it occurs as a plain substring of the lowercased
document — matching is substring containment, not whole-token matching. -/
theorem C7_fallback_languages_are_substring_matches (raw : List Char)
    (hsec : extract_section
      ["skills", "technologies", "tools", "competencies", "abilities"] raw = none) :
    (extract_skills raw none).languages =
      (sortedSet ((programmingSkills.filter
        (fun s => substr s.data (pyLower raw))).map (fun s => s.data))).map
        String.mk := by
  have hl : (skills_database.foldl (fun (acc : Buckets) (cat : String × List String) =>
      cat.2.foldl (fun (acc : Buckets) (skill : String) =>
        if substr skill.data (pyLower raw) then skillsBucketAdd cat.1 skill.data acc
        else acc) acc) (([], [], [], [], []) : Buckets)).2.2.2.2 =
      (programmingSkills.filter (fun s => substr s.data (pyLower raw))).map
        (fun s => s.data) := by
    rw [db_fold_langs]
    simp only [skills_database, programmingSkills, List.map_cons, List.map_nil,
      List.flatten_cons, List.flatten_nil, List.getD_cons_zero, List.nil_append,
      String.reduceEq, List.append_nil, reduceIte]
  unfold extract_skills
  simp only [hsec]
  exact congrArg (fun l => (sortedSet l).map String.mk) hl

/-- Witness for the amended C7 at the concrete document `"Iron rod"`. -/
theorem C7_fallback_languages_witness :
    (extract_skills ironRodText.data none).languages =
      (sortedSet ((programmingSkills.filter
        (fun s => substr s.data (pyLower ironRodText.data))).map (fun s => s.data))).map
        String.mk :=
  C7_fallback_languages_are_substring_matches ironRodText.data (by decide)

/-- Claim C8 (counterexample): when text extraction fails, `parse_resume`
returns no `ParsedResume` at all — the exception propagates — so no
resume carrying status `failed` and an error message is produced by this
function. -/
theorem C8_failure_propagates :
    parse_resume (.error "text extraction failed") none (fun _ => none) 0
      (.error "no file info") "r.pdf" "id1" = .error "text extraction failed" :=
  rfl

/-- Claim C8 (amended): `parse_resume` returns a resume only on success
and then always with status `completed` and no error message; any
collaborator failure propagates unchanged, so a failed parse is never
returned as a `ParsedResume` at all (the API layer records the failure). -/
theorem C8_status_completed_or_error (extracted : Except String String)
    (nlp : Option (String → List String)) (dparse : List Char → Option Int)
    (now : Int) (file_info : Except String FileInfo)
    (fn fid : String) :
    (∀ e, extracted = .error e →
      parse_resume extracted nlp dparse now file_info fn fid = .error e) ∧
    (∀ r, parse_resume extracted nlp dparse now file_info fn fid = .ok r →
      r.status = .completed ∧ r.error_message = none) := by
  constructor
  · intro e he
    subst he
    rfl
  · intro r h
    cases extracted with
    | error e => simp [parse_resume] at h
    | ok raw =>
      unfold parse_resume at h
      cases file_info with
      | error e => simp at h
      | ok fi =>
        simp only at h
        rcases hft : fileTypeOfExt (fi.file_extension.data.dropWhile (· = '.')) with
          _ | ft
        · rw [hft] at h
          cases h
        · rw [hft] at h
          cases h
          exact ⟨rfl, rfl⟩

/-- Witness for the amended C8: the error case at a concrete failure and
the success case at a concrete empty document. -/
theorem C8_status_witness :
    parse_resume (.error "boom") none (fun _ => none) 0
      (.ok { file_size := 1, file_extension := ".pdf" }) "r.pdf" "id1" =
      .error "boom" ∧
    (parse_resume (.ok "") none (fun _ => none) 0
      (.ok { file_size := 1, file_extension := ".pdf" }) "r.pdf" "id1").map
        (fun r => r.status) = .ok .completed := by
  constructor
  · exact (C8_status_completed_or_error (.error "boom") none (fun _ => none) 0
      (.ok { file_size := 1, file_extension := ".pdf" }) "r.pdf" "id1").1 "boom" rfl
  · rcases h : parse_resume (.ok "") none (fun _ => none) 0
        (.ok { file_size := 1, file_extension := ".pdf" }) "r.pdf" "id1" with e | r
    · have hok : (parse_resume (.ok "") none (fun _ => none) 0
          (.ok { file_size := 1, file_extension := ".pdf" }) "r.pdf" "id1").isOk
          = true := by decide
      rw [h] at hok
      cases hok
    · have := (C8_status_completed_or_error (.ok "") none (fun _ => none) 0
        (.ok { file_size := 1, file_extension := ".pdf" }) "r.pdf" "id1").2 r h
      simp [h, Except.map, this.1]

/-- Every `Education` produced by `_parse_education_entry` has a
non-empty degree: the final guard replaces an empty degree with the
sentinel `"Degree not specified"`. -/
theorem parse_education_entry_degree_ne (entry : List Char) (edu : Education)
    (h : parse_education_entry entry = some edu) : edu.degree ≠ "" := by
  have hmk : ∀ d : List Char,
      String.mk (if d = [] then "Degree not specified".data else d) ≠ "" := by
    intro d
    by_cases hd : d = []
    · rw [if_pos hd]
      decide
    · rw [if_neg hd]
      intro he
      exact hd (by simpa using congrArg String.data he)
  unfold parse_education_entry at h
  rcases hl : ((splitCh '\n' entry).map pyStrip).filter (· ≠ []) with _ | ⟨first, rest⟩ <;>
    rw [hl] at h
  · cases h
  · simp only at h
    split at h <;> split at h
    · injection h with h2
      subst h2
      exact hmk _
    · exact Option.noConfusion h
    · injection h with h2
      subst h2
      exact hmk _
    · exact Option.noConfusion h

/-- Members of the full-text education fallback come from
`_parse_education_entry`. -/
theorem eduFullTextGo_mem (ls : List (List Char)) (edu : Education)
    (h : edu ∈ eduFullTextGo ls) :
    ∃ entry, parse_education_entry entry = some edu := by
  induction ls with
  | nil => simp [eduFullTextGo] at h
  | cons l rest ih =>
    unfold eduFullTextGo at h
    dsimp only at h
    split at h
    · exact ih h
    · split at h
      · rcases he : parse_education_entry (pyJoin ("\n".data)
            (collectEntryLines (fun nl => is_education_line nl || is_section_header nl)
              8 [pyStrip l] rest)) with _ | e <;> rw [he] at h
        · exact ih h
        · rcases List.mem_cons.mp h with rfl | hmem
          · exact ⟨_, he⟩
          · exact ih hmem
      · exact ih h

/-- Claim C9: every education entry produced by the parser carries a
non-empty degree; when nothing could be extracted the fixed sentinel
`"Degree not specified"` is used instead of the empty string. -/
theorem C9_degree_never_empty :
    (∀ (entry : List Char) (edu : Education),
      parse_education_entry entry = some edu → edu.degree ≠ "") ∧
    (∀ (dparse : List Char → Option Int) (now : Int) (raw : List Char)
      (edu : Education), edu ∈ extract_education dparse now raw →
        edu.degree ≠ "") := by
  refine ⟨parse_education_entry_degree_ne, ?_⟩
  intro dparse now raw edu h
  unfold extract_education at h
  rw [mem_insSort] at h
  revert h
  split
  · intro h
    rcases List.mem_filterMap.mp h with ⟨entry, _, he⟩
    exact parse_education_entry_degree_ne entry edu he
  · intro h
    rcases eduFullTextGo_mem _ edu h with ⟨entry, he⟩
    exact parse_education_entry_degree_ne entry edu he

/-- Witness for C9 at a concrete education entry. -/
theorem C9_degree_never_empty_witness :
    ∃ e, parse_education_entry ("Harvard University".data) = some e ∧
      e.degree ≠ "" := by
  rcases h : parse_education_entry ("Harvard University".data) with _ | e
  · exact absurd h (by decide)
  · exact ⟨e, rfl, C9_degree_never_empty.1 _ e h⟩

end HireLens
